import Mathlib

/-!
Shallow embedding of the Ghost Post model (`core/server/models/post.js` content
of this repository) : the `onSaving` save hook, the `onUpdated` event deriver,
the `permissible` permission gate, and the `add` override's data rewrite.
Machine state is a record of the model's attributes; Bookshelf's
`this.get(f)` is the current attribute record, `this.previous(f)` the
previous one, and `this.hasChanged(f)` is inequality of the two.
-/

namespace Ghost

/-- Post status strings: the `ALL_STATUSES` enumeration of the model. -/
inductive Status
  | draft
  | scheduled
  | published
deriving DecidableEq, Repr

/-- The `type` column: post or page. -/
inductive PostType
  | post
  | page
deriving DecidableEq, Repr

/-- A date-like attribute value as seen through moment.js: either an
unparseable value or a parseable instant (epoch milliseconds). -/
inductive DateVal
  | invalid
  | valid (t : Int)
deriving DecidableEq, Repr

/-- JS truthiness of an optional string: `undefined`/`null` and the empty
string are falsy. -/
def truthyS : Option String → Bool
  | none => false
  | some s => s ≠ ""

/-- JS truthiness of an optional date value (any present value is truthy). -/
def truthyD : Option DateVal → Bool
  | none => false
  | some _ => true

/-- `moment(v).isValid()` on an optional date value. -/
def isValidDate : Option DateVal → Bool
  | some (.valid _) => true
  | _ => false

/-- `moment(v).isBefore(bound)`: false on absent or invalid values. -/
def dateBefore : Option DateVal → Int → Bool
  | some (.valid t), b => t < b
  | _, _ => false

/-- A tag object as it appears in the `tags` relation payload. -/
structure Tag where
  name : Option String
deriving DecidableEq, Repr

/-- One entry of the `mobiledoc_revisions` attribute set by the revisions op:
either an existing revision row referenced by its fetched `id` column, or a
fresh entry literal with `post_id`, `mobiledoc` and `created_at_ts`. -/
inductive RevEntry
  | existing (id : String)
  | fresh (post_id : String) (mobiledoc : Option String) (created_at_ts : Int)
deriving DecidableEq, Repr

/-- The modeled attribute record of a Post row (the fields the claims touch).
`none` stands for a JS `undefined`/`null` value. -/
structure Attrs where
  status : Option Status := none
  title : Option String := none
  slug : Option String := none
  published_at : Option DateVal := none
  published_by : Option String := none
  html : Option String := none
  plaintext : Option String := none
  mobiledoc : Option String := none
  comment_id : Option String := none
  send_email_when_published : Bool := false
  ptype : Option PostType := none
  tags : Option (List Tag) := none
  mobiledoc_revisions : Option (List RevEntry) := none
deriving DecidableEq, Repr

/-- A Bookshelf model instance during a save: its id, the previously synced
attributes, and the current (payload-merged) attributes. -/
structure Post where
  id : String
  prev : Attrs
  cur : Attrs
deriving DecidableEq, Repr

/-- `options.method` of a save. -/
inductive Method
  | insert
  | update
deriving DecidableEq, Repr

/-- The save `options` hash (the members `onSaving` reads). -/
structure SaveOptions where
  method : Method := .update
  importing : Bool := false
  migrating : Bool := false
  contextInternal : Bool := false
  contextUser : String := "1"
  send_email_when_published : Bool := false
  force_rerender : Bool := false

/-- External collaborators of `onSaving` that live outside this repository
(config, moment clock, mobiledoc renderer, html-to-text, slug generator,
the email relation fetch and the revision query), passed in explicitly. -/
structure Env where
  /-- The current instant (`moment()` / `new Date()` / `Date.now()`). -/
  now : Int
  /-- `config.get(times).cannotScheduleAPostBeforeInMinutes` converted to the
  same unit as `now`: the scheduling lead time added to `now`. -/
  scheduleLeadTime : Int
  /-- `JSON.stringify(mobiledocLib.blankDocument)`. -/
  blankDocument : String
  /-- `i18n.t(errors.models.post.untitled)`. -/
  untitledTitle : String
  /-- `urlUtils.mobiledocAbsoluteToRelative`. -/
  mobiledocAbsToRel : String → String
  /-- `mobiledocLib.populateImageSizes` (awaited under `force_rerender`). -/
  populateImageSizes : String → String
  /-- `mobiledocLib.mobiledocHtmlRenderer.render` composed with `JSON.parse`:
  `none` models a parse/render throw. -/
  render : Option String → Option String
  /-- `htmlToText.fromString` with the fixed option set. -/
  toPlaintext : String → String
  /-- JS `String.prototype.trim` (via `_.toString(title).trim()`). -/
  trim : String → String
  /-- `ghostBookshelf.Model.generateSlug` for this post under the save's
  transaction (status scope `all`). -/
  generateSlug : Option String → String
  /-- Whether `self.related(email).fetch()` finds an email-send record. -/
  hasEmail : Bool
  /-- The `id` columns of the post's existing mobiledoc revisions as returned
  by the `findAll` query of the revisions op, in query order (newest first). -/
  storedRevisionIds : List String

/-- Error classes used by the model. -/
inductive ErrClass
  | validationError
  | noPermissionError
deriving DecidableEq, Repr

/-- An error value: its class and its message (i18n key or literal). -/
structure ErrInfo where
  errClass : ErrClass
  message : String
deriving DecidableEq, Repr

/-- `ValidationError errors.models.post.isAlreadyPublished`. -/
def isAlreadyPublishedErr : ErrInfo :=
  ⟨.validationError, "errors.models.post.isAlreadyPublished"⟩

/-- `ValidationError errors.models.post.valueCannotBeBlank`. -/
def valueCannotBeBlankErr : ErrInfo :=
  ⟨.validationError, "errors.models.post.valueCannotBeBlank"⟩

/-- `ValidationError errors.models.post.expectedPublishedAtInFuture`. -/
def expectedPublishedAtInFutureErr : ErrInfo :=
  ⟨.validationError, "errors.models.post.expectedPublishedAtInFuture"⟩

/-- `ValidationError Invalid mobiledoc structure.` -/
def invalidMobiledocErr : ErrInfo :=
  ⟨.validationError, "Invalid mobiledoc structure."⟩

/-- `NoPermissionError errors.models.post.notEnoughPermission`. -/
def notEnoughPermissionErr : ErrInfo :=
  ⟨.noPermissionError, "errors.models.post.notEnoughPermission"⟩

/-- The outcome of a save: the attributes on the model when the promise
resolves, or the rejection error together with the attributes at the moment
of rejection (a rejected save persists nothing). -/
inductive SaveResult
  | ok (attrs : Attrs)
  | rejected (e : ErrInfo) (attrs : Attrs)
deriving DecidableEq, Repr

/-- `MOBILEDOC_REVISIONS_COUNT = 10`. -/
def MOBILEDOC_REVISIONS_COUNT : Nat := 10

/-- The tag-deduplication loop: keep the first of any two tags whose (truthy)
names agree up to lowercasing. -/
def dedupTags (ts : List Tag) : List Tag :=
  ts.foldl
    (fun acc item =>
      if acc.any (fun t =>
          truthyS t.name && truthyS item.name &&
            (t.name.getD "").toLower = (item.name.getD "").toLower) then
        acc
      else
        acc ++ [item])
    []

/-- The lowercase/uppercase tag-slug detection step: when a `tags` payload is
present, replace it with its deduplicated form. -/
def dedupTagsStep (a : Attrs) : Attrs :=
  { a with tags := a.tags.map dedupTags }

/-- Revert the generated fields `html` and `plaintext` when the payload
changed them (the forEach over `generatedFields`). -/
def revertGeneratedFields (prev a : Attrs) : Attrs :=
  let a1 := if a.html ≠ prev.html then { a with html := prev.html } else a
  if a1.plaintext ≠ prev.plaintext then { a1 with plaintext := prev.plaintext } else a1

/-- Default a falsy `mobiledoc` to the serialized blank document. -/
def defaultMobiledoc (env : Env) (a : Attrs) : Attrs :=
  if ¬ truthyS a.mobiledoc then { a with mobiledoc := some env.blankDocument } else a

/-- The `urlTransformMap` forEach restricted to the modeled fields: a changed,
truthy `mobiledoc` is rewritten absolute-to-relative. (The map's remaining
entries touch only fields outside the modeled record.) -/
def urlTransformStep (env : Env) (prev a : Attrs) : Attrs :=
  if a.mobiledoc ≠ prev.mobiledoc ∧ truthyS a.mobiledoc then
    { a with mobiledoc := some (env.mobiledocAbsToRel (a.mobiledoc.getD "")) }
  else a

/-- Under `?force_rerender=true`, re-populate image sizes in the mobiledoc. -/
def forceRerenderStep (env : Env) (opts : SaveOptions) (a : Attrs) : Attrs :=
  if opts.force_rerender then
    { a with mobiledoc := some (env.populateImageSizes (a.mobiledoc.getD "")) }
  else a

/-- Re-render `html` from mobiledoc when the mobiledoc changed, a re-render is
forced, or `html` is absent while migrating/importing; a renderer throw is a
`ValidationError`. -/
def renderStep (env : Env) (opts : SaveOptions) (prev a : Attrs) :
    Except ErrInfo Attrs :=
  if a.mobiledoc ≠ prev.mobiledoc ∨ opts.force_rerender = true ∨
      (¬ truthyS a.html ∧ (opts.migrating = true ∨ opts.importing = true)) then
    match env.render a.mobiledoc with
    | some h => .ok { a with html := some h }
    | none => .error invalidMobiledocErr
  else .ok a

/-- Recompute `plaintext` from `html` when `html` changed or `plaintext` is
falsy; a `null` html yields a `null` plaintext, and the result is only set
when truthy or different from the current value. -/
def plaintextStep (env : Env) (prev a : Attrs) : Attrs :=
  if a.html ≠ prev.html ∨ ¬ truthyS a.plaintext then
    let plaintext : Option String :=
      match a.html with
      | none => none
      | some h => some (env.toPlaintext h)
    if truthyS plaintext ∨ plaintext ≠ a.plaintext then
      { a with plaintext := plaintext }
    else a
  else a

/-- Outside imports, default a falsy title to the untitled placeholder and
trim it. -/
def titleTrimStep (env : Env) (opts : SaveOptions) (a : Attrs) : Attrs :=
  if ¬ opts.importing then
    { a with
      title := some (env.trim (if truthyS a.title then a.title.getD "" else env.untitledTitle)) }
  else a

/-- If the requested status is published and the captured `published_at` was
falsy, set `published_at` to now. -/
def publishedAtStep (env : Env) (newStatus : Option Status)
    (publishedAt0 : Option DateVal) (a : Attrs) : Attrs :=
  if newStatus = some .published ∧ ¬ truthyD publishedAt0 then
    { a with published_at := some (.valid env.now) }
  else a

/-- The `published_by` business logic: on a change into published, set it to
the acting context user unless importing with a truthy value already present;
in every other case a changed `published_by` is reverted (a falsy previous
value reverts to null) unless importing. -/
def publishedByStep (opts : SaveOptions) (prev : Attrs)
    (newStatus : Option Status) (a : Attrs) : Attrs :=
  if newStatus = some .published ∧ a.status ≠ prev.status then
    if ¬ (truthyS a.published_by = true ∧ opts.importing = true) then
      { a with published_by := some opts.contextUser }
    else a
  else
    if a.published_by ≠ prev.published_by ∧ ¬ opts.importing = true then
      { a with
        published_by := if truthyS prev.published_by then prev.published_by else none }
    else a

/-- Set the read-only `send_email_when_published` from the query-param option
when publishing/scheduling with a status change. -/
def sendEmailFlagStep (opts : SaveOptions) (prev : Attrs)
    (newStatus : Option Status) (a : Attrs) : Attrs :=
  if opts.send_email_when_published = true ∧ a.status ≠ prev.status ∧
      (newStatus = some .published ∨ newStatus = some .scheduled) then
    { a with send_email_when_published := true }
  else a

/-- The queued op that re-evaluates `send_email_when_published` for a post
moved to draft, against whether an email record exists. -/
def ensureSendEmailOp (env : Env) (a : Attrs) : Attrs :=
  if env.hasEmail then { a with send_email_when_published := true }
  else { a with send_email_when_published := false }

/-- The slug op taken when the title changed on a never-published draft:
generate a slug from the (current) title, regenerate the slug of the previous
title, and adopt the new slug only when the previous slug was itself the
auto-generated slug of the previous title. -/
def updateSlugTitleChangedOp (env : Env) (prevTitle prevSlug : Option String)
    (a : Attrs) : Attrs :=
  let slug := env.generateSlug a.title
  let prevTitleSlug := env.generateSlug prevTitle
  if some prevTitleSlug = prevSlug then { a with slug := some slug } else a

/-- The fallback slug op: a changed or falsy slug is passed through the
generator, seeded from the slug or, when falsy, the title. -/
def updateSlugDefaultOp (env : Env) (prev a : Attrs) : Attrs :=
  if a.slug ≠ prev.slug ∨ ¬ truthyS a.slug then
    { a with
      slug := some (env.generateSlug (if truthyS a.slug then a.slug else a.title)) }
  else a

/-- The mobiledoc revisions op: with no stored revisions outside an insert,
seed the previous and current bodies at logical sequence now-1 and now;
otherwise keep the first `MOBILEDOC_REVISIONS_COUNT - 1` fetched revisions
and append the current body at sequence now. -/
def updateRevisionsOp (env : Env) (opts : SaveOptions) (postId : String)
    (prevMobiledoc : Option String) (a : Attrs) : Attrs :=
  if env.storedRevisionIds.isEmpty ∧ opts.method ≠ .insert then
    { a with
      mobiledoc_revisions := some
        [.fresh postId prevMobiledoc (env.now - 1),
         .fresh postId a.mobiledoc env.now] }
  else
    { a with
      mobiledoc_revisions := some
        ((env.storedRevisionIds.take (MOBILEDOC_REVISIONS_COUNT - 1)).map .existing
          ++ [.fresh postId a.mobiledoc env.now]) }

/-- On inserts, default a falsy `comment_id` to the model id. -/
def commentIdStep (opts : SaveOptions) (p : Post) : Attrs :=
  if opts.method = .insert ∧ ¬ truthyS p.cur.comment_id then
    { p.cur with comment_id := some p.id }
  else p.cur

/-- The synchronous attribute rewriting between the scheduling validation and
the html re-render: tag dedup, generated-field revert (outside migrations),
blank-document default, URL normalization and forced re-render. -/
def syncRewrite (env : Env) (opts : SaveOptions) (prev a : Attrs) : Attrs :=
  let a := dedupTagsStep a
  let a := if ¬ opts.migrating then revertGeneratedFields prev a else a
  let a := defaultMobiledoc env a
  let a := urlTransformStep env prev a
  forceRerenderStep env opts a

/-- Everything after the html re-render: plaintext regeneration, title trim,
the published_at/published_by business logic, the send-email flag, and the
queued ops (email re-evaluation, slug update, revisions) in push order. -/
def postRender (env : Env) (opts : SaveOptions) (p : Post) (a : Attrs) : Attrs :=
  let prev := p.prev
  let newTitle := p.cur.title
  let newStatus := p.cur.status
  let prevTitle := prev.title
  let prevSlug := prev.slug
  let publishedAt0 := p.cur.published_at
  let a := plaintextStep env prev a
  let a := titleTrimStep env opts a
  let a := publishedAtStep env newStatus publishedAt0 a
  let a := publishedByStep opts prev newStatus a
  let a := sendEmailFlagStep opts prev newStatus a
  let a :=
    if newStatus = some .draft ∧ a.status ≠ prev.status then
      ensureSendEmailOp env a
    else a
  let a :=
    if prevTitle ≠ none ∧ newTitle ≠ prevTitle ∧
        newStatus = some .draft ∧ ¬ truthyD publishedAt0 then
      updateSlugTitleChangedOp env prevTitle prevSlug a
    else
      updateSlugDefaultOp env prev a
  if a.mobiledoc ≠ prev.mobiledoc ∧ ¬ opts.importing = true ∧
      ¬ opts.migrating = true then
    updateRevisionsOp env opts p.id prev.mobiledoc a
  else a

/-- The `onSaving` hook of the Post model: the early validation rejects, the
synchronous attribute rewriting, the html re-render, and the remaining
rewriting and queued ops, in source order. -/
def onSaving (env : Env) (opts : SaveOptions) (p : Post) : SaveResult :=
  let newStatus := p.cur.status
  let olderStatus := p.prev.status
  let publishedAt0 := p.cur.published_at
  let publishedAtHasChanged := p.cur.published_at ≠ p.prev.published_at
  if newStatus ≠ olderStatus ∧ newStatus = some .scheduled ∧
      olderStatus = some .published then
    .rejected isAlreadyPublishedErr p.cur
  else
    let a := commentIdStep opts p
    if newStatus = some .scheduled ∧ ¬ truthyD publishedAt0 then
      .rejected valueCannotBeBlankErr a
    else if newStatus = some .scheduled ∧ truthyD publishedAt0 ∧
        ¬ isValidDate publishedAt0 then
      .rejected valueCannotBeBlankErr a
    else if newStatus = some .scheduled ∧ truthyD publishedAt0 ∧
        isValidDate publishedAt0 ∧ publishedAtHasChanged ∧
        dateBefore publishedAt0 (env.now + env.scheduleLeadTime) ∧
        ¬ opts.importing = true ∧ ¬ opts.contextInternal = true then
      .rejected expectedPublishedAtInFutureErr a
    else
      match renderStep env opts p.prev (syncRewrite env opts p.prev a) with
      | .error e => .rejected e (syncRewrite env opts p.prev a)
      | .ok x => .ok (postRender env opts p x)

end Ghost

namespace Ghost

/-- A lifecycle event as produced by `emitChange`: the resource type it is
emitted under (the previous type when `usePreviousAttribute` is passed) and
the event name. -/
structure Ev where
  rtype : Option PostType
  name : String
deriving DecidableEq, Repr

/-- The `onUpdated` hook: derive the ordered list of model-level lifecycle
events from the previous and current attributes. (The tag/author re-emits of
`handleStatusForAttachedModels` target related models, not this one.) -/
def onUpdated (p : Post) : List Ev :=
  let statusChanging := p.cur.status ≠ p.prev.status
  let isPublished := p.cur.status = some .published
  let isScheduled := p.cur.status = some .scheduled
  let wasPublished := p.prev.status = some .published
  let wasScheduled := p.prev.status = some .scheduled
  let resourceTypeChanging := p.cur.ptype ≠ p.prev.ptype
  let publishedAtHasChanged := p.cur.published_at ≠ p.prev.published_at
  let needsReschedule := publishedAtHasChanged ∧ isScheduled
  if resourceTypeChanging then
    (if wasPublished then [⟨p.prev.ptype, "unpublished"⟩] else []) ++
    (if wasScheduled then [⟨p.prev.ptype, "unscheduled"⟩] else []) ++
    [⟨p.prev.ptype, "deleted"⟩, ⟨p.cur.ptype, "added"⟩] ++
    (if isPublished then [⟨p.cur.ptype, "published"⟩] else []) ++
    (if isScheduled then [⟨p.cur.ptype, "scheduled"⟩] else [])
  else
    (if statusChanging then
      (if wasPublished then [⟨p.cur.ptype, "unpublished"⟩] else []) ++
      (if isPublished then [⟨p.cur.ptype, "published"⟩] else []) ++
      (if isScheduled then [⟨p.cur.ptype, "scheduled"⟩] else []) ++
      (if wasScheduled ∧ ¬ isScheduled ∧ ¬ isPublished then
        [⟨p.cur.ptype, "unscheduled"⟩] else [])
    else
      (if isPublished then [⟨p.cur.ptype, "published.edited"⟩] else []) ++
      (if needsReschedule then [⟨p.cur.ptype, "rescheduled"⟩] else [])) ++
    [⟨p.cur.ptype, "edited"⟩]

/-- The action argument of `permissible`. -/
inductive Action
  | edit
  | add
  | destroy
  | other
deriving DecidableEq, Repr

/-- The inputs of `permissible` besides the action: the target post's state,
the unsafe (client-supplied) attributes, the loaded role names of the user
and of the api key, and the permission flags computed by the caller. -/
structure PermContext where
  postStatus : Option Status
  postVisibility : Option String
  unsafeStatus : Option Status
  unsafeVisibility : Option String
  userRoles : Option (List String)
  apiKeyRoles : Option (List String)
  hasUserPermission : Bool
  hasApiKeyPermission : Bool
deriving DecidableEq, Repr

/-- `_.some(roles, name)` over an optionally loaded role list. -/
def hasRole (roles : Option (List String)) (name : String) : Bool :=
  match roles with
  | none => false
  | some rs => rs.contains name

/-- `isChanging(status)`: a truthy unsafe status differing from the post's
current status. -/
def isChangingStatus (c : PermContext) : Prop :=
  c.unsafeStatus.isSome = true ∧ c.unsafeStatus ≠ c.postStatus

instance (c : PermContext) : Decidable (isChangingStatus c) := by
  unfold isChangingStatus; infer_instance

/-- `isChanging(visibility)`: a truthy unsafe visibility differing from the
post's current visibility. -/
def isChangingVisibility (c : PermContext) : Prop :=
  truthyS c.unsafeVisibility = true ∧ c.unsafeVisibility ≠ c.postVisibility

instance (c : PermContext) : Decidable (isChangingVisibility c) := by
  unfold isChangingVisibility; infer_instance

/-- `isPublished()`: a truthy unsafe status that is not draft. -/
def isPublishedReq (c : PermContext) : Prop :=
  c.unsafeStatus.isSome = true ∧ c.unsafeStatus ≠ some .draft

instance (c : PermContext) : Decidable (isPublishedReq c) := by
  unfold isPublishedReq; infer_instance

/-- `isDraft()`: the post's current status is draft. -/
def isDraftPost (c : PermContext) : Prop :=
  c.postStatus = some .draft

instance (c : PermContext) : Decidable (isDraftPost c) := by
  unfold isDraftPost; infer_instance

/-- The `hasUserPermission` computation of `permissible`: contributors get
per-action draft-only rules, and every non-elevated actor is barred from
changing visibility. -/
def permHasUserPermission (c : PermContext) (action : Action) : Bool :=
  let isContributor := hasRole c.userRoles "Contributor"
  let isOwner := hasRole c.userRoles "Owner"
  let isAdmin := hasRole c.userRoles "Administrator"
  let isEditor := hasRole c.userRoles "Editor"
  let isIntegration := hasRole c.apiKeyRoles "Admin Integration"
  if isContributor ∧ action = .edit then
    decide (¬ isChangingStatus c ∧ isDraftPost c)
  else if isContributor ∧ action = .add then
    decide (¬ isPublishedReq c)
  else if isContributor ∧ action = .destroy then
    decide (isDraftPost c)
  else if ¬ (isOwner ∨ isAdmin ∨ isEditor ∨ isIntegration) then
    decide (¬ isChangingVisibility c)
  else c.hasUserPermission

/-- The `permissible` gate of the Post model: grants when both the user and
api-key permissions hold, excludes the `tags` attribute for contributors,
and rejects a denial with the NoPermission error. -/
def permissible (c : PermContext) (action : Action) :
    Except ErrInfo (List String) :=
  let hasUserPermission := permHasUserPermission c action
  let excludedAttrs := if hasRole c.userRoles "Contributor" then ["tags"] else []
  if hasUserPermission ∧ c.hasApiKeyPermission then .ok excludedAttrs
  else .error notEnoughPermissionErr

end Ghost

namespace Ghost

/-- The per-subdomain sidebar HTML map hard-coded in the `add` override of
the Post model (`const sidebars = ...`), as an association list in source
order: keys are process subdomains, values the sidebar HTML injected into
`custom_excerpt`. -/
def sidebarsList : List (String × String) := [
  ("montana", "<span>Montana Reverse Phone Lookup</span><p>Reverse phone lookup, or reverse phone search, is used to uncover information that can identify an unknown caller. Reverse phone search tools search a variety of public records and phone number registration databases to ascertain subscribers assigned numbers submitted for search. It is useful for answering the question: &quot;who called me&quot;.<p>"),
  ("florida", "<span>Florida Reverse Phone Lookup</span><p>Reverse phone lookup (also reverse phone search) involves finding the personal details connected to a particular phone number. Some of these details include the name and address of the caller. Reverse phone lookup is enabled by the documentation provided when registering a phone number. It is useful for identifying callers and staying ahead of phone scams and stalkers.<p>"),
  ("alaska", "<span>Alaska Reverse Phone Lookup</span><p>Performing reverse phone lookup on Alaska phone numbers allows one to identify unknown callers. There are many reasons why someone may decide to investigate the origin of a phone call. While it can be out of curiosity, it may also be to find out if an unknown number belongs to a stalker, a scammer, or someone with a criminal record. Understanding how to search the extensive databases maintained by reverse phone search services can help you decide whether you should ignore an unknown caller or call them back.<p>"),
  ("nebraska", "<span>Nebraska Reverse Phone Lookup</span><p>Reverse phone lookup or reverse phone search is a way of finding the identities of callers not in your contact lists through their phone numbers. This service is useful for discovering the owners of unknown numbers calling you whether the numbers bear Nebraska area codes or not. The information provided can help you decide whether an unsolicited call is likely from a scammer, an old acquaintance, a known organization, a robocaller, or a spam caller.\n<p>"),
  ("nevada", "<span>Nevada Reverse Phone Lookup</span><p>Also known as reverse phone search, phone number lookup refers to the different ways a called party can find out the real person behind an unknown call just by searching with the phone number. Vital personal information required as a basic registration requirement for obtaining a phone number provides a rich database for reverse phone search. Using phone lookup services, Nevada residents can identify unknown callers and avoid scammers trying to steal money and information.\n<p>"),
  ("newjersey", "<span>New Jersey Reverse Phone Lookup</span><p>Reverse phone search or phone number lookup is the process for obtaining information about the registered user of a telephone service number. Before any individual is granted a phone number, they are required to provide personal information details for verification and other statutory purposes. By performing a reverse phone search using a phone number, it is possible to identify who the number is registered to.\n<p>"),
  ("newyork", "<span>New York Reverse Phone Lookup</span><p>A reverse phone number search or phone number lookup involves searching and identifying the subscriber registered to a phone number. The most common reason to conduct a phone number search is to discover details about the person using a particular phone number, most often on suspicion of fraud or other illicit activities. You can also look up an unknown phone number or a spam call in order to discover the identity of a strange caller.<p>"),
  ("connecticut", "<span>Connecticut Reverse Phone Lookup</span><p>Reverse phone lookup is the process of discovering more details about who a phone number is registered to using just the phone number. Using a standard phone directory, you find a phone number by searching by name. In reverse phone search, however, it is the phone number that will lead the enquirer to the name and other details about who the number is registered to.<p>"),
  ("indiana", "<span>Indiana Reverse Phone Lookup</span><p>Phone lookup or reverse phone search is a way of discovering the owner of a phone number by searching phone subscriber directories. With the increasing worry of phone scams, many Hoosiers are uneasy when contacted by unknown numbers. Identifying an unknown caller is just one of the many reasons why someone may consider investigating the origin and location of a call. Phone lookup services maintain extensive databases of mobile phone, landline, and some VoIP phone numbers. Anyone can easily use these online tools to differentiate genuine callers from spam.\n<p>"),
  ("kansas", "<span>Kansas Reverse Phone Lookup</span><p>The processes of searching and retrieving user information for phone numbers is referred to as reverse phone lookup. It is a procedure used to discover who an unknown number is registered to. During the process of procuring a phone line, carriers require each subscriber to provide identification and contact information. Reverse phone searches look up these details and return them to persons trying to identify persons registered to submitted phone numbers. A reverse phone lookup is also known as reverse phone search or phone number lookup.<p>"),
  ("louisiana", "<span>Louisiana Reverse Phone Lookup</span><p>A reverse phone search refers to the process involved in looking up information about a phone number to identify whom the number is registered to. Before receiving a phone number, subscribers are required to complete paperwork and provide identification, and this information is registered in a directory. A reverse phone search or phone number lookup searches the directory and retrieves available information about the registrant of a phone number.<p>"),
  ("maryland", "<span>Maryland Reverse Phone Lookup</span><p>Reverse phone lookup is a process by which an individual can discover who the phone number that called them is registered to, amongst other information. This process is also referred to as phone number search. When acquiring a phone number, each subscriber is required to complete paperwork that will contain personal information details. A reverse phone lookup accesses carrier subscriber registries to retrieve available information about the phone numbers being searched.<p>"),
  ("michigan", "<span>Michigan Reverse Phone Lookup</span><p>A reverse phone lookup is a process by which available information about the owner of a phone number is obtained. Anyone who applies for a phone number is required to provide their identity and contact data before receiving one. This information is stored in a user account directory maintained by the service provider. The question &quot;who called me?&quot; can be answered by retrieving the user information for the phone number in question with a reverse phone search.<p>"),
  ("minnesota", "<span>Minnesota Reverse Phone Lookup</span><p>Reverse phone lookup is the process of getting the names and other personal information of unknown callers using their phone numbers. There are many reasons why Minnesotans may decide to perform reverse phone searches. While some may want to find out whether anonymous numbers calling them are from scammers or stalkers, others may do so to find more information on vaguely familiar contacts. Regardless of their reasons, searching extensive directories maintained by phone number lookup services can provide information about who those numbers are registered to.<p>"),
  ("mississippi", "<span>Mississippi Reverse Phone Lookup</span><p>Reverse phone lookup or reverse phone search involves retrieving user account information for a phone number. When purchasing a phone line, the subscriber is required to provide certain personal information as well as identification. Carriers keep such subscriber information in user account directories that reverse phone searches can query. A reverse phone search or phone number search is for verifying who an unknown number is registered to.<p>"),
  ("northcarolina", "<span>North Carolina Reverse Phone Lookup</span><p>The process by which a person can obtain information about who the phone number that called them is registered to is referred to as reverse phone search or phone number lookup. Anyone who acquires a phone number is required to provide personal information about themselves, which is registered against the number. By performing a reverse phone lookup, it is possible to gain access to the subscriber details registered to a phone number.<p>"),
  ("northdakota", "<span>North Dakota Reverse Phone Lookup</span><p>Reverse phone lookup is the process of retrieving available user account information about a phone number. Also commonly referred to as phone number lookup, it provides answers to the question &quot;who is this number registered to&quot;. Part of the steps required for obtaining a new phone number is submitting personal information and providing ID to your carrier of choice. Carriers store such subscriber records in accessible user account directories. A reverse phone lookup queries these directories and returns the available information to the persons conducting the phone number lookup.<p>"),
  ("ohio", "<span>Ohio Reverse Phone Lookup</span><p>When an individual performs a reverse phone search or a phone number lookup, it is usually to find out information about the person who owns a particular phone number. This is possible because people are required to provide identifying information when requesting phone numbers. As such, discovering details about the last person who called you is simple as long as you can retrieve the phone number they called you with.<p>"),
  ("oregon", "<span>Oregon Reverse Phone Lookup</span><p>Reverse phone search, or phone number lookup, is an investigative process through which an individual retrieves information about a caller or user of a specific phone number. It comes in handy when there are doubts about the true identity of a caller. By inputting the phone number in a reverse phone lookup search, information about the subscriber assigned the number can be accessed. This is possible because subscriber details are provided to carriers when registering new phone numbers.<p>"),
  ("pennsylvania", "<span>Pennsylvania Reverse Phone Lookup</span><p>Reverse phone lookup or reverse phone search is a directory that contains phone numbers and details about who the numbers are registered to. The main difference between this and a regular directory is that the phone number is used to get other information about the customer rather than using previously known information to get the phone number. There are many reasons to undertake a reverse phone search. Some of these include identifying unknown callers, stopping spam calls, and avoiding phone scams. In addition to identifying a caller, a reverse phone lookup may also provide other information about the caller including their address and criminal record. While a quick Google search may reveal phonebook information about a phone number, dedicated reverse phone lookup services offer more thorough searches, can find information on a wider range of numbers, and provide deeper information about callers.<p>"),
  ("rhodeisland", "<span>Rhode Island Reverse Phone Lookup</span><p>Reverse phone search, also known as phone number lookup, is the process of unveiling detailed information about the subscriber registered to a phone number. It is called &#39;reverse&#39; because instead of using a name to get the phone number, the phone number is used to get the person&#39;s name and other details.<p>"),
  ("southcarolina", "<span>South Carolina Reverse Phone Lookup</span><p>It is possible to identify the unknown of an unknown number by conducting a reverse phone lookup. Reverse phone lookup services run submitted numbers through their extensive databases of phone subscribers to identify unknown callers. These services are needed when you want to find out if unknown callers with phone numbers bearing South Carolina area codes are fraudsters, stalkers, old friends, or someone you would rather engage or ignore.\n<p>"),
  ("southdakota", "<span>South Dakota Reverse Phone Lookup</span><p>Reverse phone lookup is the process of looking up available details about the registered user of a phone number. When registering new phone subscribers, carriers collect their contact information and store these details in accessible directories. A reverse phone lookup service searches these directories and retrieves user information on the subjects of the searches. When a user submits a number to a phone look service, they want an answer to the question &quot;who is this number registered to?&quot;<p>"),
  ("tennessee", "<span>Tennessee Reverse Phone Lookup</span><p>Reverse phone lookup or reverse phone search is a way of finding out the true identities of unknown callers through their phone numbers. Various phone lookup services maintain extensive directories that can provide information associated with phone numbers registered in the United States. Available information can include names, addresses, and even criminal records. Understanding how to search through these online-based phone databases can help Tennesseans determine whether or not to answer a call or redial it.<p>"),
  ("utah", "<span>Utah Reverse Phone Lookup</span><p>Reverse phone lookup is a way of retrieving a name and other personal information associated with a phone number. Some online directories maintain extensive databases useful for discovering the identities and addresses of unknown callers and other available information Understanding how to use these services can help determine whether to ignore a call from an unknown, dial back, block it, or report it to your local law enforcement.<p>"),
  ("virginia", "<span>Virginia Reverse Phone Lookup</span><p>Reverse phone lookup or reverse phone search is the process of using a phone number to identify the caller details associated with it. It is not always advisable for Virginians to answer unknown calls without first running an online reverse check on the numbers calling them. While it could be a friend, family, or acquaintance, an unknown number could also be a scammer, robocall, or malicious person. Phone lookup services maintain comprehensive collections of landline and cellphone numbers and can provide the customer details attached to them. The search results will help you decide whether you want to call back, ignore, or block future calls from that number.<p>"),
  ("westvirginia", "<span>West Virginia Reverse Phone Lookup</span><p>A phone lookup, or reverse phone search, is the act of querying a reverse phone directory to retrieve details about a particular phone number. Individuals or companies that apply for phone numbers are mandated to provide essential information such as full names and addresses. As such, anyone who receives a call from an unknown number can use reverse phone lookup to answer the question &quot;who called me?&quot;<p>"),
  ("wyoming", "<span>Wyoming Reverse Phone Lookup</span><p>Reverse phone lookup is the process of searching and retrieving information about the person registered to an unknown number. Persons procuring new phone numbers provide identification and other personal details before receiving their new numbers. This information is stored in user account directories retained by the service provider. Reverse phone lookup or phone number search services query carrier user directories and return information on the numbers submitted for searching. A reverse phone search is useful for answering the question &quot;who called me?&quot; when you receive a call from an unknown number.<p>"),
  ("california", "<span>California Reverse Phone Lookup</span><p>Reverse phone search is a phone-based information retrieval technique that involves finding information about an individual or business from their phone numbers. These phone lookup services check their databases for phone number registration histories such as name, address, and other related information. Learning this information can help recipients determine whether to answer or call back a number or not.<p>"),
  ("newhampshire", "<span>New Hampshire Reverse Phone Lookup</span><p>Reverse phone lookup is the process of searching a phone number to discover more details about the owner of the number. Using a reverse phone search to find information on the owner of any telephone number is possible because important data on the owner is collected and stored in the carrier&#39;s database before it is assigned and activated. Such carrier databases are consulted when residents of New Hampshire carry out reverse phone searches to identify unknown callers.\n<p>"),
  ("newmexico", "<span>New Mexico Reverse Phone Lookup</span><p>Reverse phone search or phone lookup is the process of searching a phone number in online directories to identify the owner. Some online web pages maintain unique search engines that allow users to know more about the owners of unknown phone numbers calling them. Using the information provided, researchers may then decide whether to ring back the caller or simply ignore their call.<p>"),
  ("oklahoma", "<span>Oklahoma Reverse Phone Lookup</span><p>Reverse phone lookup involves identifying an unknown caller by their phone number. Carrier directories and other databases of subscriber information make reverse phone searches possible. When registering new phone numbers, carriers collect identifying information from new subscribers. When searching an Oklahoma phone number using a lookup tool, the reverse phone lookup service consults the databases of all major carriers operating in the state. Identifying unknown callers can help Oklahoma residents avoid phone scams, spam calls, and robocalls.<p>"),
  ("texas", "<span>Texas Reverse Phone Lookup</span><p>Reverse phone search, or phone number lookup, refers to the process in which an individual can discover more about the person behind a phone number. Because paperwork and other information is required to be provided when being granted a phone number, it is possible to learn more about the individual calling you simply by using the phone number they used to call. <p>"),
  ("vermont", "<span>Vermont Reverse Phone Lookup</span><p>Reverse phone lookup, or reverse phone search, allows you to find out who owns unknown numbers calling you. These searches are essential everytime you receive unknown phone calls from mobile, landline, or VoIP numbers bearing Vermont area codes. Performing reverse phone search sheds more light on whether a caller is a scammer, an offender, someone you would rather not talk to, or perhaps a family or old friend that acquired a new number. Reverse phone search engines provide detailed information about unknown numbers including the owner&#39;s name and listed address.<p>"),
  ("alabama", "<span>Alabama Reverse Phone Lookup</span><p>Reverse phone lookup is a procedure for retrieving user information for a telephone number. Also referred to as phone number search, it is a search process that returns the information registered by the person who acquired the phone number. Anyone who purchases a phone line is required to provide a form of identification and relevant user information which is registered in a user account directory. Reverse phone lookup or phone number search provides access to this directory and the information stored in it, typically to verify the owner of an unknown number.<p>"),
  ("washington", "<span>Washington Reverse Phone Lookup</span><p>Reverse phone lookup is a process whereby individuals try to learn about unknown phone numbers that called them, using third-party services. Also known as reverse phone search, it searches and returns information about the person who registered a phone number. When applying for phone numbers, subscriber information must be provided which will include identification and contact details. A reverse phone search accesses this information and can provide an answer to the question &quot;who is this number registered to&quot;?<p>"),
  ("arizona", "<span>Arizona Reverse Phone Lookup</span><p>Performing a reverse phone lookup is a way of getting to know the identity of the owner of a particular phone number by searching with just the phone number. One major distinction between carrying out a reverse phone lookup and looking up a regular directory is that in this case, the phone number is used for the search. This brings up other information about the owner of any number. This subscriber information is provided when registering a new phone number. It includes the name and address of the individual assigned the number. These details are provided when conducting a reverse phone lookup on a phone number.\n<p>"),
  ("arkansas", "<span>Arkansas Reverse Phone Lookup</span><p>Reverse phone lookup is the process of identifying an unknown caller by searching with the number. It is a way to find information about a caller whose number is not stored in the recipient&#39;s phone. Reverse phone number lookup pulls information from telephone registration records of subscribers maintained by carriers.\n<p>"),
  ("colorado", "<span>Colorado Reverse Phone Lookup</span><p>A phone number lookup or reverse phone search refers to the act of retrieving the registrant&#39;s details for a number that called you. These details include the name of the registrant, their home or office address, and other pertinent details. Subscribers are required to provide these details when registering new numbers and reverse phone lookups provide access to search and retrieve such information.<p>"),
  ("delaware", "<span>Delaware Reverse Phone Lookup</span><p>Reverse phone lookup is a way of finding people and businesses using their phone numbers alone. With spam and scam calls becoming rampant, most people are reluctant to pick calls from unrecognized numbers. Knowing the true identity of an unknown caller is one of the various reasons why someone may decide to perform a reverse phone search. Phone number lookup services have extensive access to phone subscriber information and can return detailed search results when queried with Delaware phone numbers.<p>"),
  ("districtofcolumbia", "<span>District of Columbia Reverse Phone Lookup</span><p>Reverse phone search or phone number lookup is a way of using a phone number to obtain more information about the owner. The usual procedure of looking up a standard phone directory is to use the subscriber&#39;s name and address to get the phone number. In reverse phone search, it is the phone number used to discover details like the name, gender, address, and other publicly available records about the subscriber that owns the number. This is possible because of the data collated during the registration process required when obtaining a new number. Phone lookups bring up these details when residents of the District of Columbia submit phone numbers to their search engines.<p>"),
  ("georgia", "<span>Georgia Reverse Phone Lookup</span><p>Reverse phone search or phone number lookup is a way of getting the name of someone and possibly, their personal details from a phone number. There are online phone number lookup services that can retrieve registration information when provided with phone numbers. Understanding how these lookup services work and how you can use them to your advantage is needed to identify malicious callers.<p>"),
  ("hawaii", "<span>Hawaii Reverse Phone Lookup</span><p>Reverse phone search, otherwise called phone number lookup, is the process of discovering more details about the person a phone number is registered to, using just the phone number. Identifying the owner of a phone number in this way is possible because carriers require new subscribers to provide certain information when registering their numbers. Hawaiians can use phone lookup services to identify unknown callers and avoid phone scammers and spam calls.<p>"),
  ("idaho", "<span>Idaho Reverse Phone Lookup</span><p>A reverse phone lookup is a process of learning the ownership details attached to an unknown telephone number. It is also referred to as a phone number lookup. These details are required during the process of applying for a phone number and stored in the carrier&#39;s user directory. Details will typically include names, home or office addresses, social security numbers, and other pertinent information. A reverse phone search provides access to the user directory to retrieve the available information on the phone number being looked up.<p>"),
  ("illinois", "<span>Illinois Reverse Phone Lookup</span><p>Reverse phone search or phone number lookup describes being able to search and retrieve customer information for telephone service numbers. One reason for doing this is identifying an unknown caller. Information provided to phone service providers when procuring the phone numbers are available in directories are accessible by vendors providing reverse phone searches.<p>"),
  ("iowa", "<span>Iowa Reverse Phone Lookup</span><p>Reverse phone lookup, or reverse phone search, is a report that shows the individual or business associated with a phone number. This report is essential whenever you receive a phone call from a phone number bearing Iowa area code that you do not recognize and want to find out if it is a scam or a spam number, or maybe a phone number owned by a person you know. Reverse phone lookup can be performed for all phone numbers, including landlines, cell phone numbers, and VoIP numbers. Most comprehensive reverse phone search engines provide detailed information, which can include the unknown caller&#39;s full name, their address, and other secondary information.<p>"),
  ("kentucky", "<span>Kentucky Reverse Phone Lookup</span><p>Reverse phone search or phone number lookup describes the process through which one can get vital information about the identity of the person registered to a telephone number. This is made possible because every subscriber is required to supply their biodata for the purpose of verification when registering a new phone line.<p>"),
  ("maine", "<span>Maine Reverse Phone Lookup</span><p>Reverse phone lookup refers to searching with a phone number to identify an unknown caller. Phone lookup services allow anyone to find callers using only their phone numbers. In addition to the caller&#39;s name and address, a reverse phone lookup may also find other details such as gender, phone type, and social media accounts. Therefore, a reverse phone search can help you answer the question: &quot;who called me?&quot; and can be used in certain cases to conduct a soft background check.<p>"),
  ("massachusetts", "<span>Massachusetts Reverse Phone Lookup</span><p>Reverse phone lookup, also known as reverse phone search, refers to the process of retrieving the personal information attached to a registered phone number. Certain information like the caller&#39;s name and residential address can be accessed. Information provided as a requirement for obtaining a registered phone number makes reverse phone lookup possible.<p>"),
  ("wisconsin", "<span>Wisconsin Reverse Phone Lookup</span><p>A reverse phone search or phone lookup is the act of searching through a reverse phone directory for the ownership details of a phone number. When applying for a phone number, some of the mandatory details provided include basic information such as a full name and an address. Therefore, if you can recollect the phone number you were called with, you will be able to answer the question &quot;who called me?&quot;<p>"),
  ("missouri", "<span>Missouri Reverse Phone Lookup</span><p>Reverse phone lookups describe the process of searching and retrieving user details for telephone service numbers. When acquiring their phone numbers, users are required to fill out application forms to record their personal information including names and addresses. A reverse phone search, also referred to as phone number lookup, is the process of retrieving this information. The identification of whom a number is registered to is one of the most common reasons for doing this.\n<p>")
]

/-- JS object property lookup `sidebars[k]` : the value of the first matching
key, or undefined. -/
def sidebarsLookup (k : String) : Option String :=
  (sidebarsList.find? (fun p => p.1 = k)).map (fun p => p.2)

/-- The recognized subdomains: the keys of the sidebars map. -/
def recognizedSubdomains : List String := sidebarsList.map (fun p => p.1)

/-- JS string interpolation of a possibly-undefined env var. -/
def jsStringOfSubdomain : Option String → String
  | some s => s
  | none => "undefined"

/-- The caller-supplied `data` fields that the `add` override rewrites,
plus a representative untouched field. -/
structure AddData where
  title : Option String := none
  domain : Option String := none
  custom_excerpt : Option String := none
  feature_image : Option String := none
deriving DecidableEq, Repr

/-- The data rewrite performed by the `add` override before delegating to the
base model add: `data.domain` becomes `process.env.subdomain`,
`data.custom_excerpt` the sidebar HTML looked up under that subdomain, and
`data.feature_image` the CDN logo URL interpolated from it. -/
def addPrepareData (subdomain : Option String) (data : AddData) : AddData :=
  { data with
    domain := subdomain,
    custom_excerpt :=
      match subdomain with
      | none => none
      | some s => sidebarsLookup s,
    feature_image :=
      some ("https://cdn.staterecords.org/pn_logos/" ++ jsStringOfSubdomain subdomain ++ ".png") }

end Ghost

namespace Ghost

/-- A concrete external environment used to instantiate the theorems:
identity URL transforms, a total renderer and a slug generator that appends
a fixed suffix to its seed. -/
def wEnv : Env := {
  now := 1000
  scheduleLeadTime := 120
  blankDocument := "BLANKDOC"
  untitledTitle := "(Untitled)"
  mobiledocAbsToRel := fun s => s
  populateImageSizes := fun s => s
  render := fun _ => some "RENDERED"
  toPlaintext := fun h => String.append "TEXT:" h
  trim := fun s => s
  generateSlug := fun t => String.append (t.getD "untitled") "-slug"
  hasEmail := false
  storedRevisionIds := [] }

/-- A stored draft post's attribute record used by the concrete instances. -/
def wDraftAttrs : Attrs := {
  status := some .draft
  title := some "Old"
  slug := some "Old-slug"
  published_at := none
  published_by := none
  html := some "oldhtml"
  plaintext := some "oldtext"
  mobiledoc := some "oldbody" }

/-- A published post whose save requests status scheduled. -/
def wPostPubToSched : Post := {
  id := "p1"
  prev := { wDraftAttrs with status := some .published, published_at := some (.valid 500) }
  cur := { wDraftAttrs with status := some .scheduled, published_at := some (.valid 500) } }

/-- A draft post whose save requests status scheduled with a changed
`published_at` that undercuts the lead time. -/
def wPostSchedEarly : Post := {
  id := "p2"
  prev := wDraftAttrs
  cur := { wDraftAttrs with status := some .scheduled, published_at := some (.valid 900) } }

/-- A draft post whose save requests status published with no
`published_at` and no `published_by`. -/
def wPostPublish : Post := {
  id := "p3"
  prev := wDraftAttrs
  cur := { wDraftAttrs with status := some .published } }

/-- A draft post whose save changes only the body. -/
def wPostBodyEdit : Post := {
  id := "p4"
  prev := wDraftAttrs
  cur := { wDraftAttrs with mobiledoc := some "newbody" } }

/-- A draft post whose save changes only the title. -/
def wPostTitleEdit : Post := {
  id := "p6"
  prev := wDraftAttrs
  cur := { wDraftAttrs with title := some "New" } }

/-- A post whose save changes the type from post to page while published. -/
def wPostTypeChange : Post := {
  id := "p7"
  prev := { wDraftAttrs with status := some .published, ptype := some .post }
  cur := { wDraftAttrs with status := some .published, ptype := some .page } }

/-- A draft post whose save tries to override the generated fields. -/
def wPostHtmlOverride : Post := {
  id := "p10"
  prev := wDraftAttrs
  cur := { wDraftAttrs with html := some "EVIL", plaintext := some "EVILTEXT" } }

/-- A contributor editing a draft without a status change. -/
def wContribCtx : PermContext := {
  postStatus := some .draft
  postVisibility := some "public"
  unsafeStatus := none
  unsafeVisibility := none
  userRoles := some ["Contributor"]
  apiKeyRoles := none
  hasUserPermission := true
  hasApiKeyPermission := true }

/-- The save resolved successfully. -/
def savedOk (r : SaveResult) : Prop :=
  ∃ a, r = .ok a

/-- The save rejected with the given error. -/
def rejectedWith (r : SaveResult) (e : ErrInfo) : Prop :=
  ∃ a, r = .rejected e a

/-- The attribute record carried by a save outcome (the resolved attributes,
or the in-flight attributes at the moment of a rejection). -/
def resultAttrs : SaveResult → Attrs
  | .ok a => a
  | .rejected _ a => a

end Ghost

namespace Ghost

theorem status_ite (c : Prop) [Decidable c] (x y : Attrs) :
    (if c then x else y).status = if c then x.status else y.status :=
  apply_ite Attrs.status c x y

theorem title_ite (c : Prop) [Decidable c] (x y : Attrs) :
    (if c then x else y).title = if c then x.title else y.title :=
  apply_ite Attrs.title c x y

theorem slug_ite (c : Prop) [Decidable c] (x y : Attrs) :
    (if c then x else y).slug = if c then x.slug else y.slug :=
  apply_ite Attrs.slug c x y

theorem published_at_ite (c : Prop) [Decidable c] (x y : Attrs) :
    (if c then x else y).published_at = if c then x.published_at else y.published_at :=
  apply_ite Attrs.published_at c x y

theorem published_by_ite (c : Prop) [Decidable c] (x y : Attrs) :
    (if c then x else y).published_by = if c then x.published_by else y.published_by :=
  apply_ite Attrs.published_by c x y

theorem html_ite (c : Prop) [Decidable c] (x y : Attrs) :
    (if c then x else y).html = if c then x.html else y.html :=
  apply_ite Attrs.html c x y

theorem plaintext_ite (c : Prop) [Decidable c] (x y : Attrs) :
    (if c then x else y).plaintext = if c then x.plaintext else y.plaintext :=
  apply_ite Attrs.plaintext c x y

theorem mobiledoc_ite (c : Prop) [Decidable c] (x y : Attrs) :
    (if c then x else y).mobiledoc = if c then x.mobiledoc else y.mobiledoc :=
  apply_ite Attrs.mobiledoc c x y

theorem comment_id_ite (c : Prop) [Decidable c] (x y : Attrs) :
    (if c then x else y).comment_id = if c then x.comment_id else y.comment_id :=
  apply_ite Attrs.comment_id c x y

theorem mobiledoc_revisions_ite (c : Prop) [Decidable c] (x y : Attrs) :
    (if c then x else y).mobiledoc_revisions =
      if c then x.mobiledoc_revisions else y.mobiledoc_revisions :=
  apply_ite Attrs.mobiledoc_revisions c x y

theorem truthyS_some_getD {o : Option String} (h : truthyS o = true) :
    some (o.getD "") = o := by
  cases o with
  | none => simp [truthyS] at h
  | some s => rfl

/-- C1. A save whose previous status is published and whose requested status
is scheduled is rejected with the isAlreadyPublished ValidationError before
any attribute is touched: the rejection carries the unmodified current
attribute record, whatever the rest of the payload and options are. -/
theorem onSaving_published_to_scheduled_rejected
    (env : Env) (opts : SaveOptions) (p : Post)
    (hprev : p.prev.status = some Status.published)
    (hcur : p.cur.status = some Status.scheduled) :
    onSaving env opts p = .rejected isAlreadyPublishedErr p.cur := by
  simp only [onSaving]
  rw [if_pos ⟨by simp [hprev, hcur], hcur, hprev⟩]

/-- Witness for C1 at a concrete published post asked to become scheduled. -/
theorem onSaving_published_to_scheduled_rejected_witness :
    onSaving wEnv {} wPostPubToSched = .rejected isAlreadyPublishedErr wPostPubToSched.cur :=
  onSaving_published_to_scheduled_rejected wEnv {} wPostPubToSched rfl rfl

end Ghost

namespace Ghost

theorem dedupTagsStep_status (a : Attrs) :
    (dedupTagsStep a).status = a.status := by
  rfl

theorem dedupTagsStep_title (a : Attrs) :
    (dedupTagsStep a).title = a.title := by
  rfl

theorem dedupTagsStep_slug (a : Attrs) :
    (dedupTagsStep a).slug = a.slug := by
  rfl

theorem dedupTagsStep_published_at (a : Attrs) :
    (dedupTagsStep a).published_at = a.published_at := by
  rfl

theorem dedupTagsStep_published_by (a : Attrs) :
    (dedupTagsStep a).published_by = a.published_by := by
  rfl

theorem dedupTagsStep_html (a : Attrs) :
    (dedupTagsStep a).html = a.html := by
  rfl

theorem dedupTagsStep_plaintext (a : Attrs) :
    (dedupTagsStep a).plaintext = a.plaintext := by
  rfl

theorem dedupTagsStep_mobiledoc (a : Attrs) :
    (dedupTagsStep a).mobiledoc = a.mobiledoc := by
  rfl

theorem revertGeneratedFields_status (prev a : Attrs) :
    (revertGeneratedFields prev a).status = a.status := by
  unfold revertGeneratedFields
  split <;> (dsimp only; split <;> rfl)

theorem revertGeneratedFields_title (prev a : Attrs) :
    (revertGeneratedFields prev a).title = a.title := by
  unfold revertGeneratedFields
  split <;> (dsimp only; split <;> rfl)

theorem revertGeneratedFields_slug (prev a : Attrs) :
    (revertGeneratedFields prev a).slug = a.slug := by
  unfold revertGeneratedFields
  split <;> (dsimp only; split <;> rfl)

theorem revertGeneratedFields_published_at (prev a : Attrs) :
    (revertGeneratedFields prev a).published_at = a.published_at := by
  unfold revertGeneratedFields
  split <;> (dsimp only; split <;> rfl)

theorem revertGeneratedFields_published_by (prev a : Attrs) :
    (revertGeneratedFields prev a).published_by = a.published_by := by
  unfold revertGeneratedFields
  split <;> (dsimp only; split <;> rfl)

theorem revertGeneratedFields_mobiledoc (prev a : Attrs) :
    (revertGeneratedFields prev a).mobiledoc = a.mobiledoc := by
  unfold revertGeneratedFields
  split <;> (dsimp only; split <;> rfl)

theorem defaultMobiledoc_status (env : Env) (a : Attrs) :
    (defaultMobiledoc env a).status = a.status := by
  unfold defaultMobiledoc
  split <;> rfl

theorem defaultMobiledoc_title (env : Env) (a : Attrs) :
    (defaultMobiledoc env a).title = a.title := by
  unfold defaultMobiledoc
  split <;> rfl

theorem defaultMobiledoc_slug (env : Env) (a : Attrs) :
    (defaultMobiledoc env a).slug = a.slug := by
  unfold defaultMobiledoc
  split <;> rfl

theorem defaultMobiledoc_published_at (env : Env) (a : Attrs) :
    (defaultMobiledoc env a).published_at = a.published_at := by
  unfold defaultMobiledoc
  split <;> rfl

theorem defaultMobiledoc_published_by (env : Env) (a : Attrs) :
    (defaultMobiledoc env a).published_by = a.published_by := by
  unfold defaultMobiledoc
  split <;> rfl

theorem defaultMobiledoc_html (env : Env) (a : Attrs) :
    (defaultMobiledoc env a).html = a.html := by
  unfold defaultMobiledoc
  split <;> rfl

theorem defaultMobiledoc_plaintext (env : Env) (a : Attrs) :
    (defaultMobiledoc env a).plaintext = a.plaintext := by
  unfold defaultMobiledoc
  split <;> rfl

theorem urlTransformStep_status (env : Env) (prev a : Attrs) :
    (urlTransformStep env prev a).status = a.status := by
  unfold urlTransformStep
  split <;> rfl

theorem urlTransformStep_title (env : Env) (prev a : Attrs) :
    (urlTransformStep env prev a).title = a.title := by
  unfold urlTransformStep
  split <;> rfl

theorem urlTransformStep_slug (env : Env) (prev a : Attrs) :
    (urlTransformStep env prev a).slug = a.slug := by
  unfold urlTransformStep
  split <;> rfl

theorem urlTransformStep_published_at (env : Env) (prev a : Attrs) :
    (urlTransformStep env prev a).published_at = a.published_at := by
  unfold urlTransformStep
  split <;> rfl

theorem urlTransformStep_published_by (env : Env) (prev a : Attrs) :
    (urlTransformStep env prev a).published_by = a.published_by := by
  unfold urlTransformStep
  split <;> rfl

theorem urlTransformStep_html (env : Env) (prev a : Attrs) :
    (urlTransformStep env prev a).html = a.html := by
  unfold urlTransformStep
  split <;> rfl

theorem urlTransformStep_plaintext (env : Env) (prev a : Attrs) :
    (urlTransformStep env prev a).plaintext = a.plaintext := by
  unfold urlTransformStep
  split <;> rfl

theorem forceRerenderStep_status (env : Env) (opts : SaveOptions) (a : Attrs) :
    (forceRerenderStep env opts a).status = a.status := by
  unfold forceRerenderStep
  split <;> rfl

theorem forceRerenderStep_title (env : Env) (opts : SaveOptions) (a : Attrs) :
    (forceRerenderStep env opts a).title = a.title := by
  unfold forceRerenderStep
  split <;> rfl

theorem forceRerenderStep_slug (env : Env) (opts : SaveOptions) (a : Attrs) :
    (forceRerenderStep env opts a).slug = a.slug := by
  unfold forceRerenderStep
  split <;> rfl

theorem forceRerenderStep_published_at (env : Env) (opts : SaveOptions) (a : Attrs) :
    (forceRerenderStep env opts a).published_at = a.published_at := by
  unfold forceRerenderStep
  split <;> rfl

theorem forceRerenderStep_published_by (env : Env) (opts : SaveOptions) (a : Attrs) :
    (forceRerenderStep env opts a).published_by = a.published_by := by
  unfold forceRerenderStep
  split <;> rfl

theorem forceRerenderStep_html (env : Env) (opts : SaveOptions) (a : Attrs) :
    (forceRerenderStep env opts a).html = a.html := by
  unfold forceRerenderStep
  split <;> rfl

theorem forceRerenderStep_plaintext (env : Env) (opts : SaveOptions) (a : Attrs) :
    (forceRerenderStep env opts a).plaintext = a.plaintext := by
  unfold forceRerenderStep
  split <;> rfl

theorem plaintextStep_status (env : Env) (prev a : Attrs) :
    (plaintextStep env prev a).status = a.status := by
  unfold plaintextStep
  split
  · dsimp only
    split <;> rfl
  · rfl

theorem plaintextStep_title (env : Env) (prev a : Attrs) :
    (plaintextStep env prev a).title = a.title := by
  unfold plaintextStep
  split
  · dsimp only
    split <;> rfl
  · rfl

theorem plaintextStep_slug (env : Env) (prev a : Attrs) :
    (plaintextStep env prev a).slug = a.slug := by
  unfold plaintextStep
  split
  · dsimp only
    split <;> rfl
  · rfl

theorem plaintextStep_published_at (env : Env) (prev a : Attrs) :
    (plaintextStep env prev a).published_at = a.published_at := by
  unfold plaintextStep
  split
  · dsimp only
    split <;> rfl
  · rfl

theorem plaintextStep_published_by (env : Env) (prev a : Attrs) :
    (plaintextStep env prev a).published_by = a.published_by := by
  unfold plaintextStep
  split
  · dsimp only
    split <;> rfl
  · rfl

theorem plaintextStep_html (env : Env) (prev a : Attrs) :
    (plaintextStep env prev a).html = a.html := by
  unfold plaintextStep
  split
  · dsimp only
    split <;> rfl
  · rfl

theorem plaintextStep_mobiledoc (env : Env) (prev a : Attrs) :
    (plaintextStep env prev a).mobiledoc = a.mobiledoc := by
  unfold plaintextStep
  split
  · dsimp only
    split <;> rfl
  · rfl

theorem titleTrimStep_status (env : Env) (opts : SaveOptions) (a : Attrs) :
    (titleTrimStep env opts a).status = a.status := by
  unfold titleTrimStep
  split <;> rfl

theorem titleTrimStep_slug (env : Env) (opts : SaveOptions) (a : Attrs) :
    (titleTrimStep env opts a).slug = a.slug := by
  unfold titleTrimStep
  split <;> rfl

theorem titleTrimStep_published_at (env : Env) (opts : SaveOptions) (a : Attrs) :
    (titleTrimStep env opts a).published_at = a.published_at := by
  unfold titleTrimStep
  split <;> rfl

theorem titleTrimStep_published_by (env : Env) (opts : SaveOptions) (a : Attrs) :
    (titleTrimStep env opts a).published_by = a.published_by := by
  unfold titleTrimStep
  split <;> rfl

theorem titleTrimStep_html (env : Env) (opts : SaveOptions) (a : Attrs) :
    (titleTrimStep env opts a).html = a.html := by
  unfold titleTrimStep
  split <;> rfl

theorem titleTrimStep_plaintext (env : Env) (opts : SaveOptions) (a : Attrs) :
    (titleTrimStep env opts a).plaintext = a.plaintext := by
  unfold titleTrimStep
  split <;> rfl

theorem titleTrimStep_mobiledoc (env : Env) (opts : SaveOptions) (a : Attrs) :
    (titleTrimStep env opts a).mobiledoc = a.mobiledoc := by
  unfold titleTrimStep
  split <;> rfl

theorem publishedAtStep_status (env : Env) (ns : Option Status) (pa0 : Option DateVal) (a : Attrs) :
    (publishedAtStep env ns pa0 a).status = a.status := by
  unfold publishedAtStep
  split <;> rfl

theorem publishedAtStep_title (env : Env) (ns : Option Status) (pa0 : Option DateVal) (a : Attrs) :
    (publishedAtStep env ns pa0 a).title = a.title := by
  unfold publishedAtStep
  split <;> rfl

theorem publishedAtStep_slug (env : Env) (ns : Option Status) (pa0 : Option DateVal) (a : Attrs) :
    (publishedAtStep env ns pa0 a).slug = a.slug := by
  unfold publishedAtStep
  split <;> rfl

theorem publishedAtStep_published_by (env : Env) (ns : Option Status) (pa0 : Option DateVal) (a : Attrs) :
    (publishedAtStep env ns pa0 a).published_by = a.published_by := by
  unfold publishedAtStep
  split <;> rfl

theorem publishedAtStep_html (env : Env) (ns : Option Status) (pa0 : Option DateVal) (a : Attrs) :
    (publishedAtStep env ns pa0 a).html = a.html := by
  unfold publishedAtStep
  split <;> rfl

theorem publishedAtStep_plaintext (env : Env) (ns : Option Status) (pa0 : Option DateVal) (a : Attrs) :
    (publishedAtStep env ns pa0 a).plaintext = a.plaintext := by
  unfold publishedAtStep
  split <;> rfl

theorem publishedAtStep_mobiledoc (env : Env) (ns : Option Status) (pa0 : Option DateVal) (a : Attrs) :
    (publishedAtStep env ns pa0 a).mobiledoc = a.mobiledoc := by
  unfold publishedAtStep
  split <;> rfl

theorem publishedByStep_status (opts : SaveOptions) (prev : Attrs) (ns : Option Status) (a : Attrs) :
    (publishedByStep opts prev ns a).status = a.status := by
  unfold publishedByStep
  split <;> split <;> rfl

theorem publishedByStep_title (opts : SaveOptions) (prev : Attrs) (ns : Option Status) (a : Attrs) :
    (publishedByStep opts prev ns a).title = a.title := by
  unfold publishedByStep
  split <;> split <;> rfl

theorem publishedByStep_slug (opts : SaveOptions) (prev : Attrs) (ns : Option Status) (a : Attrs) :
    (publishedByStep opts prev ns a).slug = a.slug := by
  unfold publishedByStep
  split <;> split <;> rfl

theorem publishedByStep_published_at (opts : SaveOptions) (prev : Attrs) (ns : Option Status) (a : Attrs) :
    (publishedByStep opts prev ns a).published_at = a.published_at := by
  unfold publishedByStep
  split <;> split <;> rfl

theorem publishedByStep_html (opts : SaveOptions) (prev : Attrs) (ns : Option Status) (a : Attrs) :
    (publishedByStep opts prev ns a).html = a.html := by
  unfold publishedByStep
  split <;> split <;> rfl

theorem publishedByStep_plaintext (opts : SaveOptions) (prev : Attrs) (ns : Option Status) (a : Attrs) :
    (publishedByStep opts prev ns a).plaintext = a.plaintext := by
  unfold publishedByStep
  split <;> split <;> rfl

theorem publishedByStep_mobiledoc (opts : SaveOptions) (prev : Attrs) (ns : Option Status) (a : Attrs) :
    (publishedByStep opts prev ns a).mobiledoc = a.mobiledoc := by
  unfold publishedByStep
  split <;> split <;> rfl

theorem sendEmailFlagStep_status (opts : SaveOptions) (prev : Attrs) (ns : Option Status) (a : Attrs) :
    (sendEmailFlagStep opts prev ns a).status = a.status := by
  unfold sendEmailFlagStep
  split <;> rfl

theorem sendEmailFlagStep_title (opts : SaveOptions) (prev : Attrs) (ns : Option Status) (a : Attrs) :
    (sendEmailFlagStep opts prev ns a).title = a.title := by
  unfold sendEmailFlagStep
  split <;> rfl

theorem sendEmailFlagStep_slug (opts : SaveOptions) (prev : Attrs) (ns : Option Status) (a : Attrs) :
    (sendEmailFlagStep opts prev ns a).slug = a.slug := by
  unfold sendEmailFlagStep
  split <;> rfl

theorem sendEmailFlagStep_published_at (opts : SaveOptions) (prev : Attrs) (ns : Option Status) (a : Attrs) :
    (sendEmailFlagStep opts prev ns a).published_at = a.published_at := by
  unfold sendEmailFlagStep
  split <;> rfl

theorem sendEmailFlagStep_published_by (opts : SaveOptions) (prev : Attrs) (ns : Option Status) (a : Attrs) :
    (sendEmailFlagStep opts prev ns a).published_by = a.published_by := by
  unfold sendEmailFlagStep
  split <;> rfl

theorem sendEmailFlagStep_html (opts : SaveOptions) (prev : Attrs) (ns : Option Status) (a : Attrs) :
    (sendEmailFlagStep opts prev ns a).html = a.html := by
  unfold sendEmailFlagStep
  split <;> rfl

theorem sendEmailFlagStep_plaintext (opts : SaveOptions) (prev : Attrs) (ns : Option Status) (a : Attrs) :
    (sendEmailFlagStep opts prev ns a).plaintext = a.plaintext := by
  unfold sendEmailFlagStep
  split <;> rfl

theorem sendEmailFlagStep_mobiledoc (opts : SaveOptions) (prev : Attrs) (ns : Option Status) (a : Attrs) :
    (sendEmailFlagStep opts prev ns a).mobiledoc = a.mobiledoc := by
  unfold sendEmailFlagStep
  split <;> rfl

theorem ensureSendEmailOp_status (env : Env) (a : Attrs) :
    (ensureSendEmailOp env a).status = a.status := by
  unfold ensureSendEmailOp
  split <;> rfl

theorem ensureSendEmailOp_title (env : Env) (a : Attrs) :
    (ensureSendEmailOp env a).title = a.title := by
  unfold ensureSendEmailOp
  split <;> rfl

theorem ensureSendEmailOp_slug (env : Env) (a : Attrs) :
    (ensureSendEmailOp env a).slug = a.slug := by
  unfold ensureSendEmailOp
  split <;> rfl

theorem ensureSendEmailOp_published_at (env : Env) (a : Attrs) :
    (ensureSendEmailOp env a).published_at = a.published_at := by
  unfold ensureSendEmailOp
  split <;> rfl

theorem ensureSendEmailOp_published_by (env : Env) (a : Attrs) :
    (ensureSendEmailOp env a).published_by = a.published_by := by
  unfold ensureSendEmailOp
  split <;> rfl

theorem ensureSendEmailOp_html (env : Env) (a : Attrs) :
    (ensureSendEmailOp env a).html = a.html := by
  unfold ensureSendEmailOp
  split <;> rfl

theorem ensureSendEmailOp_plaintext (env : Env) (a : Attrs) :
    (ensureSendEmailOp env a).plaintext = a.plaintext := by
  unfold ensureSendEmailOp
  split <;> rfl

theorem ensureSendEmailOp_mobiledoc (env : Env) (a : Attrs) :
    (ensureSendEmailOp env a).mobiledoc = a.mobiledoc := by
  unfold ensureSendEmailOp
  split <;> rfl

theorem updateSlugTitleChangedOp_status (env : Env) (pt ps : Option String) (a : Attrs) :
    (updateSlugTitleChangedOp env pt ps a).status = a.status := by
  unfold updateSlugTitleChangedOp
  dsimp only
  split <;> rfl

theorem updateSlugTitleChangedOp_title (env : Env) (pt ps : Option String) (a : Attrs) :
    (updateSlugTitleChangedOp env pt ps a).title = a.title := by
  unfold updateSlugTitleChangedOp
  dsimp only
  split <;> rfl

theorem updateSlugTitleChangedOp_published_at (env : Env) (pt ps : Option String) (a : Attrs) :
    (updateSlugTitleChangedOp env pt ps a).published_at = a.published_at := by
  unfold updateSlugTitleChangedOp
  dsimp only
  split <;> rfl

theorem updateSlugTitleChangedOp_published_by (env : Env) (pt ps : Option String) (a : Attrs) :
    (updateSlugTitleChangedOp env pt ps a).published_by = a.published_by := by
  unfold updateSlugTitleChangedOp
  dsimp only
  split <;> rfl

theorem updateSlugTitleChangedOp_html (env : Env) (pt ps : Option String) (a : Attrs) :
    (updateSlugTitleChangedOp env pt ps a).html = a.html := by
  unfold updateSlugTitleChangedOp
  dsimp only
  split <;> rfl

theorem updateSlugTitleChangedOp_plaintext (env : Env) (pt ps : Option String) (a : Attrs) :
    (updateSlugTitleChangedOp env pt ps a).plaintext = a.plaintext := by
  unfold updateSlugTitleChangedOp
  dsimp only
  split <;> rfl

theorem updateSlugTitleChangedOp_mobiledoc (env : Env) (pt ps : Option String) (a : Attrs) :
    (updateSlugTitleChangedOp env pt ps a).mobiledoc = a.mobiledoc := by
  unfold updateSlugTitleChangedOp
  dsimp only
  split <;> rfl

theorem updateSlugDefaultOp_status (env : Env) (prev a : Attrs) :
    (updateSlugDefaultOp env prev a).status = a.status := by
  unfold updateSlugDefaultOp
  split <;> rfl

theorem updateSlugDefaultOp_title (env : Env) (prev a : Attrs) :
    (updateSlugDefaultOp env prev a).title = a.title := by
  unfold updateSlugDefaultOp
  split <;> rfl

theorem updateSlugDefaultOp_published_at (env : Env) (prev a : Attrs) :
    (updateSlugDefaultOp env prev a).published_at = a.published_at := by
  unfold updateSlugDefaultOp
  split <;> rfl

theorem updateSlugDefaultOp_published_by (env : Env) (prev a : Attrs) :
    (updateSlugDefaultOp env prev a).published_by = a.published_by := by
  unfold updateSlugDefaultOp
  split <;> rfl

theorem updateSlugDefaultOp_html (env : Env) (prev a : Attrs) :
    (updateSlugDefaultOp env prev a).html = a.html := by
  unfold updateSlugDefaultOp
  split <;> rfl

theorem updateSlugDefaultOp_plaintext (env : Env) (prev a : Attrs) :
    (updateSlugDefaultOp env prev a).plaintext = a.plaintext := by
  unfold updateSlugDefaultOp
  split <;> rfl

theorem updateSlugDefaultOp_mobiledoc (env : Env) (prev a : Attrs) :
    (updateSlugDefaultOp env prev a).mobiledoc = a.mobiledoc := by
  unfold updateSlugDefaultOp
  split <;> rfl

theorem updateRevisionsOp_status (env : Env) (opts : SaveOptions) (pid : String) (pm : Option String) (a : Attrs) :
    (updateRevisionsOp env opts pid pm a).status = a.status := by
  unfold updateRevisionsOp
  split <;> rfl

theorem updateRevisionsOp_title (env : Env) (opts : SaveOptions) (pid : String) (pm : Option String) (a : Attrs) :
    (updateRevisionsOp env opts pid pm a).title = a.title := by
  unfold updateRevisionsOp
  split <;> rfl

theorem updateRevisionsOp_slug (env : Env) (opts : SaveOptions) (pid : String) (pm : Option String) (a : Attrs) :
    (updateRevisionsOp env opts pid pm a).slug = a.slug := by
  unfold updateRevisionsOp
  split <;> rfl

theorem updateRevisionsOp_published_at (env : Env) (opts : SaveOptions) (pid : String) (pm : Option String) (a : Attrs) :
    (updateRevisionsOp env opts pid pm a).published_at = a.published_at := by
  unfold updateRevisionsOp
  split <;> rfl

theorem updateRevisionsOp_published_by (env : Env) (opts : SaveOptions) (pid : String) (pm : Option String) (a : Attrs) :
    (updateRevisionsOp env opts pid pm a).published_by = a.published_by := by
  unfold updateRevisionsOp
  split <;> rfl

theorem updateRevisionsOp_html (env : Env) (opts : SaveOptions) (pid : String) (pm : Option String) (a : Attrs) :
    (updateRevisionsOp env opts pid pm a).html = a.html := by
  unfold updateRevisionsOp
  split <;> rfl

theorem updateRevisionsOp_plaintext (env : Env) (opts : SaveOptions) (pid : String) (pm : Option String) (a : Attrs) :
    (updateRevisionsOp env opts pid pm a).plaintext = a.plaintext := by
  unfold updateRevisionsOp
  split <;> rfl

theorem updateRevisionsOp_mobiledoc (env : Env) (opts : SaveOptions) (pid : String) (pm : Option String) (a : Attrs) :
    (updateRevisionsOp env opts pid pm a).mobiledoc = a.mobiledoc := by
  unfold updateRevisionsOp
  split <;> rfl

end Ghost

namespace Ghost

theorem commentIdStep_status (opts : SaveOptions) (p : Post) :
    (commentIdStep opts p).status = p.cur.status := by
  unfold commentIdStep
  split <;> rfl

theorem commentIdStep_title (opts : SaveOptions) (p : Post) :
    (commentIdStep opts p).title = p.cur.title := by
  unfold commentIdStep
  split <;> rfl

theorem commentIdStep_slug (opts : SaveOptions) (p : Post) :
    (commentIdStep opts p).slug = p.cur.slug := by
  unfold commentIdStep
  split <;> rfl

theorem commentIdStep_published_at (opts : SaveOptions) (p : Post) :
    (commentIdStep opts p).published_at = p.cur.published_at := by
  unfold commentIdStep
  split <;> rfl

theorem commentIdStep_published_by (opts : SaveOptions) (p : Post) :
    (commentIdStep opts p).published_by = p.cur.published_by := by
  unfold commentIdStep
  split <;> rfl

theorem commentIdStep_html (opts : SaveOptions) (p : Post) :
    (commentIdStep opts p).html = p.cur.html := by
  unfold commentIdStep
  split <;> rfl

theorem commentIdStep_plaintext (opts : SaveOptions) (p : Post) :
    (commentIdStep opts p).plaintext = p.cur.plaintext := by
  unfold commentIdStep
  split <;> rfl

theorem commentIdStep_mobiledoc (opts : SaveOptions) (p : Post) :
    (commentIdStep opts p).mobiledoc = p.cur.mobiledoc := by
  unfold commentIdStep
  split <;> rfl

theorem syncRewrite_status (env : Env) (opts : SaveOptions) (prev a : Attrs) :
    (syncRewrite env opts prev a).status = a.status := by
  unfold syncRewrite
  dsimp only
  rw [forceRerenderStep_status, urlTransformStep_status, defaultMobiledoc_status]
  split <;> simp only [revertGeneratedFields_status, dedupTagsStep_status]

theorem syncRewrite_title (env : Env) (opts : SaveOptions) (prev a : Attrs) :
    (syncRewrite env opts prev a).title = a.title := by
  unfold syncRewrite
  dsimp only
  rw [forceRerenderStep_title, urlTransformStep_title, defaultMobiledoc_title]
  split <;> simp only [revertGeneratedFields_title, dedupTagsStep_title]

theorem syncRewrite_slug (env : Env) (opts : SaveOptions) (prev a : Attrs) :
    (syncRewrite env opts prev a).slug = a.slug := by
  unfold syncRewrite
  dsimp only
  rw [forceRerenderStep_slug, urlTransformStep_slug, defaultMobiledoc_slug]
  split <;> simp only [revertGeneratedFields_slug, dedupTagsStep_slug]

theorem syncRewrite_published_at (env : Env) (opts : SaveOptions) (prev a : Attrs) :
    (syncRewrite env opts prev a).published_at = a.published_at := by
  unfold syncRewrite
  dsimp only
  rw [forceRerenderStep_published_at, urlTransformStep_published_at,
    defaultMobiledoc_published_at]
  split <;> simp only [revertGeneratedFields_published_at, dedupTagsStep_published_at]

theorem syncRewrite_published_by (env : Env) (opts : SaveOptions) (prev a : Attrs) :
    (syncRewrite env opts prev a).published_by = a.published_by := by
  unfold syncRewrite
  dsimp only
  rw [forceRerenderStep_published_by, urlTransformStep_published_by,
    defaultMobiledoc_published_by]
  split <;> simp only [revertGeneratedFields_published_by, dedupTagsStep_published_by]

theorem revertGeneratedFields_html_eq (prev a : Attrs) :
    (revertGeneratedFields prev a).html = prev.html := by
  unfold revertGeneratedFields
  split <;> (dsimp only; split <;> simp_all)

theorem revertGeneratedFields_plaintext_eq (prev a : Attrs) :
    (revertGeneratedFields prev a).plaintext = prev.plaintext := by
  unfold revertGeneratedFields
  split <;> (dsimp only; split <;> simp_all)

theorem forceRerenderStep_skip (env : Env) (opts : SaveOptions) (a : Attrs)
    (h : opts.force_rerender = false) : forceRerenderStep env opts a = a := by
  unfold forceRerenderStep
  rw [if_neg]
  simp [h]

theorem defaultMobiledoc_truthy (env : Env) (a : Attrs)
    (h : truthyS a.mobiledoc = true) : defaultMobiledoc env a = a := by
  unfold defaultMobiledoc
  rw [if_neg]
  simp [h]

theorem urlTransformStep_mobiledoc_id (env : Env) (prev a : Attrs)
    (htr : ∀ s, env.mobiledocAbsToRel s = s) (ht : truthyS a.mobiledoc = true) :
    (urlTransformStep env prev a).mobiledoc = a.mobiledoc := by
  unfold urlTransformStep
  split
  · dsimp only
    rw [htr, truthyS_some_getD ht]
  · rfl

theorem syncRewrite_html_eq (env : Env) (opts : SaveOptions) (prev a : Attrs)
    (hmig : opts.migrating = false) :
    (syncRewrite env opts prev a).html = prev.html := by
  unfold syncRewrite
  dsimp only
  rw [forceRerenderStep_html, urlTransformStep_html, defaultMobiledoc_html,
    if_pos (by simp [hmig]), revertGeneratedFields_html_eq]

theorem syncRewrite_plaintext_eq (env : Env) (opts : SaveOptions) (prev a : Attrs)
    (hmig : opts.migrating = false) :
    (syncRewrite env opts prev a).plaintext = prev.plaintext := by
  unfold syncRewrite
  dsimp only
  rw [forceRerenderStep_plaintext, urlTransformStep_plaintext,
    defaultMobiledoc_plaintext, if_pos (by simp [hmig]),
    revertGeneratedFields_plaintext_eq]

theorem syncRewrite_mobiledoc_eq (env : Env) (opts : SaveOptions) (prev a : Attrs)
    (ht : truthyS a.mobiledoc = true)
    (htr : ∀ s, env.mobiledocAbsToRel s = s)
    (hforce : opts.force_rerender = false) :
    (syncRewrite env opts prev a).mobiledoc = a.mobiledoc := by
  unfold syncRewrite
  dsimp only
  have hX : (if ¬ opts.migrating = true then
      revertGeneratedFields prev (dedupTagsStep a) else dedupTagsStep a).mobiledoc
      = a.mobiledoc := by
    split <;> simp only [revertGeneratedFields_mobiledoc, dedupTagsStep_mobiledoc]
  rw [forceRerenderStep_skip _ _ _ hforce,
    defaultMobiledoc_truthy _ _ (by rw [hX]; exact ht),
    urlTransformStep_mobiledoc_id _ _ _ htr (by rw [hX]; exact ht), hX]

end Ghost

namespace Ghost

theorem renderStep_ne_error (env : Env) (opts : SaveOptions) (prev a : Attrs)
    (e : ErrInfo) (h : ∀ md, (env.render md).isSome = true) :
    renderStep env opts prev a ≠ .error e := by
  unfold renderStep
  split
  · have ht := h a.mobiledoc
    cases hr : env.render a.mobiledoc with
    | none => rw [hr] at ht; simp at ht
    | some v => simp [hr]
  · simp

theorem renderStep_ok_preserves (env : Env) (opts : SaveOptions)
    (prev a x : Attrs) (h : renderStep env opts prev a = .ok x) :
    x.status = a.status ∧ x.title = a.title ∧ x.slug = a.slug ∧
    x.published_at = a.published_at ∧ x.published_by = a.published_by ∧
    x.mobiledoc = a.mobiledoc ∧ x.plaintext = a.plaintext := by
  unfold renderStep at h
  split at h
  · cases hr : env.render a.mobiledoc with
    | none => rw [hr] at h; exact absurd h (by simp)
    | some v =>
      rw [hr] at h
      injection h with h
      subst h
      exact ⟨rfl, rfl, rfl, rfl, rfl, rfl, rfl⟩
  · injection h with h
    subst h
    exact ⟨rfl, rfl, rfl, rfl, rfl, rfl, rfl⟩

theorem renderStep_no_rerender (env : Env) (opts : SaveOptions) (prev a : Attrs)
    (h1 : a.mobiledoc = prev.mobiledoc) (h2 : opts.force_rerender = false)
    (h3 : opts.migrating = false) (h4 : opts.importing = false) :
    renderStep env opts prev a = .ok a := by
  unfold renderStep
  rw [if_neg]
  rintro (hc | hc | hc) <;> simp_all

theorem titleTrimStep_title_char (env : Env) (opts : SaveOptions) (a : Attrs) :
    (titleTrimStep env opts a).title =
      if ¬ opts.importing = true then
        some (env.trim (if truthyS a.title then a.title.getD "" else env.untitledTitle))
      else a.title := by
  unfold titleTrimStep
  split <;> simp_all

theorem publishedAtStep_published_at_char (env : Env) (ns : Option Status)
    (pa0 : Option DateVal) (a : Attrs) :
    (publishedAtStep env ns pa0 a).published_at =
      if ns = some Status.published ∧ ¬ truthyD pa0 = true then
        some (.valid env.now)
      else a.published_at := by
  unfold publishedAtStep
  split <;> simp_all

theorem publishedByStep_published_by_char (opts : SaveOptions) (prev : Attrs)
    (ns : Option Status) (a : Attrs) :
    (publishedByStep opts prev ns a).published_by =
      if ns = some Status.published ∧ a.status ≠ prev.status then
        (if ¬ (truthyS a.published_by = true ∧ opts.importing = true) then
          some opts.contextUser
        else a.published_by)
      else
        (if a.published_by ≠ prev.published_by ∧ ¬ opts.importing = true then
          (if truthyS prev.published_by then prev.published_by else none)
        else a.published_by) := by
  unfold publishedByStep
  split <;> split <;> simp_all

theorem updateSlugTitleChangedOp_slug_char (env : Env) (pt ps : Option String)
    (a : Attrs) :
    (updateSlugTitleChangedOp env pt ps a).slug =
      if some (env.generateSlug pt) = ps then
        some (env.generateSlug a.title)
      else a.slug := by
  unfold updateSlugTitleChangedOp
  dsimp only
  split <;> simp_all

theorem updateSlugDefaultOp_slug_char (env : Env) (prev a : Attrs) :
    (updateSlugDefaultOp env prev a).slug =
      if a.slug ≠ prev.slug ∨ ¬ truthyS a.slug = true then
        some (env.generateSlug (if truthyS a.slug then a.slug else a.title))
      else a.slug := by
  unfold updateSlugDefaultOp
  split <;> simp_all

theorem updateRevisionsOp_revisions_char (env : Env) (opts : SaveOptions)
    (pid : String) (pm : Option String) (a : Attrs) :
    (updateRevisionsOp env opts pid pm a).mobiledoc_revisions =
      if env.storedRevisionIds.isEmpty = true ∧ opts.method ≠ .insert then
        some [.fresh pid pm (env.now - 1), .fresh pid a.mobiledoc env.now]
      else
        some ((env.storedRevisionIds.take (MOBILEDOC_REVISIONS_COUNT - 1)).map .existing
          ++ [.fresh pid a.mobiledoc env.now]) := by
  unfold updateRevisionsOp
  split <;> simp_all

theorem plaintextStep_skip (env : Env) (prev a : Attrs)
    (h1 : a.html = prev.html) (h2 : truthyS a.plaintext = true) :
    plaintextStep env prev a = a := by
  unfold plaintextStep
  rw [if_neg]
  rintro (hc | hc) <;> simp_all

end Ghost

namespace Ghost

theorem onSaving_eq_ok (env : Env) (opts : SaveOptions) (p : Post) (x : Attrs)
    (hG1 : ¬ (p.cur.status ≠ p.prev.status ∧ p.cur.status = some Status.scheduled ∧
      p.prev.status = some Status.published))
    (hG2 : ¬ (p.cur.status = some Status.scheduled ∧
      ¬ truthyD p.cur.published_at = true))
    (hG3 : ¬ (p.cur.status = some Status.scheduled ∧
      truthyD p.cur.published_at = true ∧ ¬ isValidDate p.cur.published_at = true))
    (hG4 : ¬ (p.cur.status = some Status.scheduled ∧
      truthyD p.cur.published_at = true ∧ isValidDate p.cur.published_at = true ∧
      p.cur.published_at ≠ p.prev.published_at ∧
      dateBefore p.cur.published_at (env.now + env.scheduleLeadTime) = true ∧
      ¬ opts.importing = true ∧ ¬ opts.contextInternal = true))
    (hx : renderStep env opts p.prev
      (syncRewrite env opts p.prev (commentIdStep opts p)) = .ok x) :
    onSaving env opts p = .ok (postRender env opts p x) := by
  unfold onSaving
  dsimp only
  rw [if_neg hG1, if_neg hG2, if_neg hG3, if_neg hG4, hx]

end Ghost

namespace Ghost

/-- C2. Scheduling validation: with requested status scheduled, an absent or
unparseable `published_at` rejects with the valueCannotBeBlank
ValidationError on every save, imports included; a changed, parseable
`published_at` earlier than now plus the configured lead time rejects with
the expectedPublishedAtInFuture ValidationError when not importing and not
under an internal context, while the identical payload saved with
`importing` set succeeds. -/
theorem onSaving_scheduled_publishedAt_validation
    (env : Env) (opts : SaveOptions) (p : Post)
    (hcur : p.cur.status = some Status.scheduled)
    (hprev : p.prev.status ≠ some Status.published)
    (hrender : ∀ md, (env.render md).isSome = true) :
    ((p.cur.published_at = none ∨ p.cur.published_at = some DateVal.invalid) →
      rejectedWith (onSaving env opts p) valueCannotBeBlankErr) ∧
    (∀ t, p.cur.published_at = some (DateVal.valid t) →
      p.cur.published_at ≠ p.prev.published_at →
      t < env.now + env.scheduleLeadTime →
      opts.contextInternal = false →
      (opts.importing = false →
        rejectedWith (onSaving env opts p) expectedPublishedAtInFutureErr) ∧
      savedOk (onSaving env { opts with importing := true } p)) := by
  constructor
  · intro hpa
    unfold onSaving
    dsimp only
    rw [if_neg (fun h => hprev h.2.2)]
    rcases hpa with hpa | hpa
    · rw [if_pos ⟨hcur, by simp [hpa, truthyD]⟩]
      exact ⟨_, rfl⟩
    · rw [if_neg (by simp [hpa, truthyD]),
        if_pos ⟨hcur, by simp [hpa, truthyD], by simp [hpa, isValidDate]⟩]
      exact ⟨_, rfl⟩
  · intro t hpa hchg hlt hint
    constructor
    · intro himp
      unfold onSaving
      dsimp only
      rw [if_neg (fun h => hprev h.2.2),
        if_neg (by simp [hpa, truthyD]),
        if_neg (by simp [hpa, truthyD, isValidDate]),
        if_pos ⟨hcur, by simp [hpa, truthyD], by simp [hpa, isValidDate], hchg,
          by simp only [hpa, dateBefore, decide_eq_true_eq]; exact hlt,
          by simp [himp], by simp [hint]⟩]
      exact ⟨_, rfl⟩
    · cases hr : renderStep env { opts with importing := true } p.prev
        (syncRewrite env { opts with importing := true } p.prev
          (commentIdStep { opts with importing := true } p)) with
      | error e => exact absurd hr (renderStep_ne_error _ _ _ _ _ hrender)
      | ok x =>
        exact ⟨_, onSaving_eq_ok env { opts with importing := true } p x
          (fun h => hprev h.2.2)
          (by simp [hpa, truthyD])
          (by simp [hpa, truthyD, isValidDate])
          (fun h => h.2.2.2.2.2.1 rfl)
          hr⟩

/-- Witness for C2 at a concrete draft post scheduled 220 units short of the
lead-time horizon: the save is rejected, the same payload with `importing`
succeeds, and an absent `published_at` is rejected even under `importing`. -/
theorem onSaving_scheduled_publishedAt_validation_witness :
    rejectedWith (onSaving wEnv {} wPostSchedEarly) expectedPublishedAtInFutureErr ∧
    savedOk (onSaving wEnv { importing := true } wPostSchedEarly) ∧
    rejectedWith
      (onSaving wEnv { importing := true }
        { wPostSchedEarly with
          cur := { wPostSchedEarly.cur with published_at := none } })
      valueCannotBeBlankErr := by
  have h := (onSaving_scheduled_publishedAt_validation wEnv {} wPostSchedEarly rfl
    (by decide) (fun _ => rfl)).2 900 rfl (by decide) (by decide) rfl
  have hblank := (onSaving_scheduled_publishedAt_validation wEnv
    { importing := true }
    { wPostSchedEarly with
      cur := { wPostSchedEarly.cur with published_at := none } }
    rfl (by decide) (fun _ => rfl)).1 (Or.inl rfl)
  exact ⟨h.1 rfl, h.2, hblank⟩

end Ghost

namespace Ghost

theorem postRender_published_at (env : Env) (opts : SaveOptions) (p : Post)
    (x : Attrs) :
    (postRender env opts p x).published_at =
      if p.cur.status = some Status.published ∧ ¬ truthyD p.cur.published_at = true then
        some (.valid env.now)
      else x.published_at := by
  simp only [postRender, published_at_ite, updateRevisionsOp_published_at,
    updateSlugTitleChangedOp_published_at, updateSlugDefaultOp_published_at,
    ensureSendEmailOp_published_at, sendEmailFlagStep_published_at,
    publishedByStep_published_at, publishedAtStep_published_at_char,
    titleTrimStep_published_at, plaintextStep_published_at, ite_self]

theorem postRender_published_by (env : Env) (opts : SaveOptions) (p : Post)
    (x : Attrs) :
    (postRender env opts p x).published_by =
      if p.cur.status = some Status.published ∧ x.status ≠ p.prev.status then
        (if ¬ (truthyS x.published_by = true ∧ opts.importing = true) then
          some opts.contextUser
        else x.published_by)
      else
        (if x.published_by ≠ p.prev.published_by ∧ ¬ opts.importing = true then
          (if truthyS p.prev.published_by then p.prev.published_by else none)
        else x.published_by) := by
  simp only [postRender, published_by_ite, updateRevisionsOp_published_by,
    updateSlugTitleChangedOp_published_by, updateSlugDefaultOp_published_by,
    ensureSendEmailOp_published_by, sendEmailFlagStep_published_by,
    publishedByStep_published_by_char, publishedAtStep_published_by,
    titleTrimStep_published_by, plaintextStep_published_by,
    publishedAtStep_status, titleTrimStep_status, plaintextStep_status, ite_self]

theorem published_by_revert_id (o : Option String) (h : o ≠ some "") :
    (if truthyS o then o else none) = o := by
  cases o with
  | none => simp [truthyS]
  | some s =>
    have hs : s ≠ "" := fun e => h (by rw [e])
    simp [truthyS, hs]

/-- C3. Publishing business logic: on a save whose requested status is
published, an absent (falsy) `published_at` is set to the current instant;
when the status actually changed, `published_by` is set to the acting
context user unless importing with a `published_by` already present (which
is then kept); and when the status did not change, a changed `published_by`
is reverted to its previous value on any non-import save. -/
theorem onSaving_published_sets_publishedAt_publishedBy
    (env : Env) (opts : SaveOptions) (p : Post)
    (hcur : p.cur.status = some Status.published)
    (hprevby : p.prev.published_by ≠ some "")
    (hrender : ∀ md, (env.render md).isSome = true) :
    savedOk (onSaving env opts p) ∧
    (truthyD p.cur.published_at = false →
      (resultAttrs (onSaving env opts p)).published_at = some (.valid env.now)) ∧
    (p.cur.status ≠ p.prev.status →
      (¬ (truthyS p.cur.published_by = true ∧ opts.importing = true) →
        (resultAttrs (onSaving env opts p)).published_by = some opts.contextUser) ∧
      (truthyS p.cur.published_by = true → opts.importing = true →
        (resultAttrs (onSaving env opts p)).published_by = p.cur.published_by)) ∧
    (p.cur.status = p.prev.status →
      p.cur.published_by ≠ p.prev.published_by → opts.importing = false →
      (resultAttrs (onSaving env opts p)).published_by = p.prev.published_by) := by
  cases hr : renderStep env opts p.prev
      (syncRewrite env opts p.prev (commentIdStep opts p)) with
  | error e => exact absurd hr (renderStep_ne_error _ _ _ _ _ hrender)
  | ok x =>
    have hok := onSaving_eq_ok env opts p x
      (fun h => by rw [hcur] at h; exact absurd h.2.1 (by simp))
      (by simp [hcur]) (by simp [hcur]) (by simp [hcur]) hr
    have hpres := renderStep_ok_preserves _ _ _ _ _ hr
    have hx_status : x.status = p.cur.status := by
      rw [hpres.1, syncRewrite_status, commentIdStep_status]
    have hx_pat : x.published_at = p.cur.published_at := by
      rw [hpres.2.2.2.1, syncRewrite_published_at, commentIdStep_published_at]
    have hx_pby : x.published_by = p.cur.published_by := by
      rw [hpres.2.2.2.2.1, syncRewrite_published_by, commentIdStep_published_by]
    simp only [hok, resultAttrs]
    refine ⟨⟨_, rfl⟩, ?_, ?_, ?_⟩
    · intro hpa
      rw [postRender_published_at, if_pos ⟨hcur, by simp [hpa]⟩]
    · intro hch
      constructor
      · intro hnot
        rw [postRender_published_by,
          if_pos ⟨hcur, by rw [hx_status]; exact hch⟩,
          if_pos (by rw [hx_pby]; exact hnot)]
      · intro ht himp
        rw [postRender_published_by,
          if_pos ⟨hcur, by rw [hx_status]; exact hch⟩,
          if_neg (fun hn => hn ⟨by rw [hx_pby]; exact ht, himp⟩), hx_pby]
    · intro heq hch himp
      rw [postRender_published_by,
        if_neg (fun h => h.2 (by rw [hx_status, heq])),
        if_pos ⟨by rw [hx_pby]; exact hch, by simp [himp]⟩,
        published_by_revert_id _ hprevby]

/-- Witness for C3 at a concrete draft post moved to published with no
`published_at` and no `published_by` in the payload. -/
theorem onSaving_published_sets_publishedAt_publishedBy_witness :
    savedOk (onSaving wEnv {} wPostPublish) ∧
    (resultAttrs (onSaving wEnv {} wPostPublish)).published_at =
      some (.valid 1000) ∧
    (resultAttrs (onSaving wEnv {} wPostPublish)).published_by = some "1" := by
  have h := onSaving_published_sets_publishedAt_publishedBy wEnv {} wPostPublish
    rfl (by decide) (fun _ => rfl)
  exact ⟨h.1, h.2.1 rfl, (h.2.2.1 (by decide)).1 (by decide)⟩

end Ghost

namespace Ghost

theorem postRender_revisions_set (env : Env) (opts : SaveOptions) (p : Post)
    (x : Attrs) (hchg : x.mobiledoc ≠ p.prev.mobiledoc)
    (himp : opts.importing = false) (hmig : opts.migrating = false) :
    (postRender env opts p x).mobiledoc_revisions =
      if env.storedRevisionIds.isEmpty = true ∧ opts.method ≠ .insert then
        some [.fresh p.id p.prev.mobiledoc (env.now - 1),
              .fresh p.id x.mobiledoc env.now]
      else
        some ((env.storedRevisionIds.take (MOBILEDOC_REVISIONS_COUNT - 1)).map .existing
          ++ [.fresh p.id x.mobiledoc env.now]) := by
  simp only [postRender, mobiledoc_ite, mobiledoc_revisions_ite,
    updateSlugTitleChangedOp_mobiledoc, updateSlugDefaultOp_mobiledoc,
    ensureSendEmailOp_mobiledoc, sendEmailFlagStep_mobiledoc,
    publishedByStep_mobiledoc, publishedAtStep_mobiledoc,
    titleTrimStep_mobiledoc, plaintextStep_mobiledoc, ite_self,
    updateRevisionsOp_revisions_char, himp, hmig]
  rw [if_pos (by simp [hchg])]

/-- C4. Revision seeding: on a non-insert, non-import, non-migration save
whose body changed while the post has no stored revisions, the resulting
revision log is exactly two fresh entries: the previous body at logical
sequence now - 1 followed by the new body at sequence now. -/
theorem onSaving_first_revision_seeds_two_entries
    (env : Env) (opts : SaveOptions) (p : Post)
    (hrevs : env.storedRevisionIds = [])
    (hmethod : opts.method ≠ .insert)
    (himp : opts.importing = false) (hmig : opts.migrating = false)
    (hforce : opts.force_rerender = false)
    (ht : truthyS p.cur.mobiledoc = true)
    (htr : ∀ s, env.mobiledocAbsToRel s = s)
    (hchg : p.cur.mobiledoc ≠ p.prev.mobiledoc)
    (hnosched : p.cur.status ≠ some Status.scheduled)
    (hrender : ∀ md, (env.render md).isSome = true) :
    savedOk (onSaving env opts p) ∧
    (resultAttrs (onSaving env opts p)).mobiledoc_revisions =
      some [.fresh p.id p.prev.mobiledoc (env.now - 1),
            .fresh p.id p.cur.mobiledoc env.now] := by
  cases hr : renderStep env opts p.prev
      (syncRewrite env opts p.prev (commentIdStep opts p)) with
  | error e => exact absurd hr (renderStep_ne_error _ _ _ _ _ hrender)
  | ok x =>
    have hok := onSaving_eq_ok env opts p x
      (fun h => hnosched h.2.1) (fun h => hnosched h.1)
      (fun h => hnosched h.1) (fun h => hnosched h.1) hr
    have hpres := renderStep_ok_preserves _ _ _ _ _ hr
    have hxm : x.mobiledoc = p.cur.mobiledoc := by
      rw [hpres.2.2.2.2.2.1,
        syncRewrite_mobiledoc_eq _ _ _ _ (by rw [commentIdStep_mobiledoc]; exact ht)
          htr hforce,
        commentIdStep_mobiledoc]
    simp only [hok, resultAttrs]
    refine ⟨⟨_, rfl⟩, ?_⟩
    rw [postRender_revisions_set env opts p x (by rw [hxm]; exact hchg) himp hmig,
      if_pos ⟨by rw [hrevs]; rfl, hmethod⟩, hxm]

/-- Witness for C4 at a concrete draft post whose body changes with no
stored revisions. -/
theorem onSaving_first_revision_seeds_two_entries_witness :
    savedOk (onSaving wEnv {} wPostBodyEdit) ∧
    (resultAttrs (onSaving wEnv {} wPostBodyEdit)).mobiledoc_revisions =
      some [.fresh "p4" (some "oldbody") 999, .fresh "p4" (some "newbody") 1000] :=
  onSaving_first_revision_seeds_two_entries wEnv {} wPostBodyEdit rfl
    (by decide) rfl rfl rfl (by decide) (fun _ => rfl) (by decide) (by decide)
    (fun _ => rfl)

/-- C5. Bounded revision history: on a non-import, non-migration save whose
body changed while the post already has stored revisions, the resulting
revision log keeps only the first `MOBILEDOC_REVISIONS_COUNT - 1` fetched
(newest-first) revisions and appends the new body as the newest entry, so
its length never exceeds `MOBILEDOC_REVISIONS_COUNT`. -/
theorem onSaving_revisions_bounded
    (env : Env) (opts : SaveOptions) (p : Post)
    (hrevs : env.storedRevisionIds ≠ [])
    (himp : opts.importing = false) (hmig : opts.migrating = false)
    (hforce : opts.force_rerender = false)
    (ht : truthyS p.cur.mobiledoc = true)
    (htr : ∀ s, env.mobiledocAbsToRel s = s)
    (hchg : p.cur.mobiledoc ≠ p.prev.mobiledoc)
    (hnosched : p.cur.status ≠ some Status.scheduled)
    (hrender : ∀ md, (env.render md).isSome = true) :
    savedOk (onSaving env opts p) ∧
    (resultAttrs (onSaving env opts p)).mobiledoc_revisions =
      some ((env.storedRevisionIds.take (MOBILEDOC_REVISIONS_COUNT - 1)).map .existing
        ++ [.fresh p.id p.cur.mobiledoc env.now]) ∧
    ((resultAttrs (onSaving env opts p)).mobiledoc_revisions.getD []).length ≤
      MOBILEDOC_REVISIONS_COUNT := by
  cases hr : renderStep env opts p.prev
      (syncRewrite env opts p.prev (commentIdStep opts p)) with
  | error e => exact absurd hr (renderStep_ne_error _ _ _ _ _ hrender)
  | ok x =>
    have hok := onSaving_eq_ok env opts p x
      (fun h => hnosched h.2.1) (fun h => hnosched h.1)
      (fun h => hnosched h.1) (fun h => hnosched h.1) hr
    have hpres := renderStep_ok_preserves _ _ _ _ _ hr
    have hxm : x.mobiledoc = p.cur.mobiledoc := by
      rw [hpres.2.2.2.2.2.1,
        syncRewrite_mobiledoc_eq _ _ _ _ (by rw [commentIdStep_mobiledoc]; exact ht)
          htr hforce,
        commentIdStep_mobiledoc]
    have hrevlist : (resultAttrs (onSaving env opts p)).mobiledoc_revisions =
        some ((env.storedRevisionIds.take (MOBILEDOC_REVISIONS_COUNT - 1)).map .existing
          ++ [.fresh p.id p.cur.mobiledoc env.now]) := by
      simp only [hok, resultAttrs]
      rw [postRender_revisions_set env opts p x (by rw [hxm]; exact hchg) himp hmig,
        if_neg (fun h => hrevs (List.isEmpty_iff.mp h.1)), hxm]
    refine ⟨by rw [hok]; exact ⟨_, rfl⟩, hrevlist, ?_⟩
    rw [hrevlist]
    simp only [Option.getD_some, List.length_append, List.length_map,
      List.length_take, List.length_singleton, MOBILEDOC_REVISIONS_COUNT]
    omega

/-- Witness for C5 at a concrete draft post whose body changes with eleven
stored revisions: nine are kept and the new body appended. -/
theorem onSaving_revisions_bounded_witness :
    savedOk (onSaving
      { wEnv with storedRevisionIds :=
          ["r1","r2","r3","r4","r5","r6","r7","r8","r9","r10","r11"] } {} wPostBodyEdit) ∧
    (resultAttrs (onSaving
      { wEnv with storedRevisionIds :=
          ["r1","r2","r3","r4","r5","r6","r7","r8","r9","r10","r11"] } {} wPostBodyEdit)).mobiledoc_revisions =
      some [.existing "r1", .existing "r2", .existing "r3", .existing "r4",
            .existing "r5", .existing "r6", .existing "r7", .existing "r8",
            .existing "r9", .fresh "p4" (some "newbody") 1000] ∧
    ((resultAttrs (onSaving
      { wEnv with storedRevisionIds :=
          ["r1","r2","r3","r4","r5","r6","r7","r8","r9","r10","r11"] } {} wPostBodyEdit)).mobiledoc_revisions.getD []).length ≤
      MOBILEDOC_REVISIONS_COUNT :=
  onSaving_revisions_bounded
    { wEnv with storedRevisionIds :=
        ["r1","r2","r3","r4","r5","r6","r7","r8","r9","r10","r11"] } {} wPostBodyEdit
    (by decide) rfl rfl rfl (by decide) (fun _ => rfl) (by decide) (by decide)
    (fun _ => rfl)

end Ghost

namespace Ghost

theorem postRender_title_char (env : Env) (opts : SaveOptions) (p : Post)
    (x : Attrs) :
    (postRender env opts p x).title =
      if ¬ opts.importing = true then
        some (env.trim (if truthyS x.title then x.title.getD "" else env.untitledTitle))
      else x.title := by
  simp only [postRender, title_ite, updateRevisionsOp_title,
    updateSlugTitleChangedOp_title, updateSlugDefaultOp_title,
    ensureSendEmailOp_title, sendEmailFlagStep_title, publishedByStep_title,
    publishedAtStep_title, titleTrimStep_title_char, plaintextStep_title, ite_self]

theorem postRender_slug_char (env : Env) (opts : SaveOptions) (p : Post)
    (x : Attrs) :
    (postRender env opts p x).slug =
      (let tF := if ¬ opts.importing = true then
          some (env.trim (if truthyS x.title then x.title.getD "" else env.untitledTitle))
        else x.title
      if p.prev.title ≠ none ∧ p.cur.title ≠ p.prev.title ∧
          p.cur.status = some Status.draft ∧ ¬ truthyD p.cur.published_at = true then
        (if some (env.generateSlug p.prev.title) = p.prev.slug then
          some (env.generateSlug tF)
        else x.slug)
      else
        (if x.slug ≠ p.prev.slug ∨ ¬ truthyS x.slug = true then
          some (env.generateSlug (if truthyS x.slug then x.slug else tF))
        else x.slug)) := by
  simp only [postRender, slug_ite, title_ite, updateRevisionsOp_slug,
    updateSlugTitleChangedOp_slug_char, updateSlugDefaultOp_slug_char,
    ensureSendEmailOp_slug, sendEmailFlagStep_slug, publishedByStep_slug,
    publishedAtStep_slug, titleTrimStep_slug, plaintextStep_slug,
    ensureSendEmailOp_title, sendEmailFlagStep_title, publishedByStep_title,
    publishedAtStep_title, titleTrimStep_title_char, plaintextStep_title, ite_self]

theorem postRender_html (env : Env) (opts : SaveOptions) (p : Post) (x : Attrs) :
    (postRender env opts p x).html = x.html := by
  simp only [postRender, html_ite, updateRevisionsOp_html,
    updateSlugTitleChangedOp_html, updateSlugDefaultOp_html,
    ensureSendEmailOp_html, sendEmailFlagStep_html, publishedByStep_html,
    publishedAtStep_html, titleTrimStep_html, plaintextStep_html, ite_self]

theorem postRender_plaintext (env : Env) (opts : SaveOptions) (p : Post)
    (x : Attrs) :
    (postRender env opts p x).plaintext = (plaintextStep env p.prev x).plaintext := by
  simp only [postRender, plaintext_ite, updateRevisionsOp_plaintext,
    updateSlugTitleChangedOp_plaintext, updateSlugDefaultOp_plaintext,
    ensureSendEmailOp_plaintext, sendEmailFlagStep_plaintext,
    publishedByStep_plaintext, publishedAtStep_plaintext,
    titleTrimStep_plaintext, ite_self]

end Ghost

namespace Ghost

theorem syncRewrite_mobiledoc_unchanged (env : Env) (opts : SaveOptions)
    (prev a : Attrs) (heq : a.mobiledoc = prev.mobiledoc)
    (ht : truthyS a.mobiledoc = true) (hforce : opts.force_rerender = false) :
    (syncRewrite env opts prev a).mobiledoc = a.mobiledoc := by
  unfold syncRewrite
  dsimp only
  have hX : (if ¬ opts.migrating = true then
      revertGeneratedFields prev (dedupTagsStep a) else dedupTagsStep a).mobiledoc
      = a.mobiledoc := by
    split <;> simp only [revertGeneratedFields_mobiledoc, dedupTagsStep_mobiledoc]
  rw [forceRerenderStep_skip _ _ _ hforce,
    defaultMobiledoc_truthy _ _ (by rw [hX]; exact ht)]
  unfold urlTransformStep
  rw [if_neg (fun hc => hc.1 (by rw [hX, heq]))]
  exact hX

/-- C6. Slug regeneration policy: when the title changed on a draft that was
never published (previous title defined, captured `published_at` falsy), the
slug is regenerated from the stored (trimmed) new title exactly when
regenerating a slug from the previous title reproduces the stored previous
slug, and is left untouched otherwise (a custom slug is preserved); in every
other case a changed or falsy slug field is passed through the generator,
seeded from the slug or, when falsy, the stored title. -/
theorem onSaving_slug_regeneration_policy
    (env : Env) (opts : SaveOptions) (p : Post)
    (hnosched : p.cur.status ≠ some Status.scheduled)
    (hrender : ∀ md, (env.render md).isSome = true) :
    savedOk (onSaving env opts p) ∧
    ((p.prev.title ≠ none ∧ p.cur.title ≠ p.prev.title ∧
      p.cur.status = some Status.draft ∧ truthyD p.cur.published_at = false) →
      (resultAttrs (onSaving env opts p)).slug =
        (if some (env.generateSlug p.prev.title) = p.prev.slug then
          some (env.generateSlug (resultAttrs (onSaving env opts p)).title)
        else p.cur.slug)) ∧
    (¬ (p.prev.title ≠ none ∧ p.cur.title ≠ p.prev.title ∧
      p.cur.status = some Status.draft ∧ truthyD p.cur.published_at = false) →
      (resultAttrs (onSaving env opts p)).slug =
        (if p.cur.slug ≠ p.prev.slug ∨ truthyS p.cur.slug = false then
          some (env.generateSlug
            (if truthyS p.cur.slug then p.cur.slug
             else (resultAttrs (onSaving env opts p)).title))
        else p.cur.slug)) := by
  cases hr : renderStep env opts p.prev
      (syncRewrite env opts p.prev (commentIdStep opts p)) with
  | error e => exact absurd hr (renderStep_ne_error _ _ _ _ _ hrender)
  | ok x =>
    have hok := onSaving_eq_ok env opts p x
      (fun h => hnosched h.2.1) (fun h => hnosched h.1)
      (fun h => hnosched h.1) (fun h => hnosched h.1) hr
    have hpres := renderStep_ok_preserves _ _ _ _ _ hr
    have hx_title : x.title = p.cur.title := by
      rw [hpres.2.1, syncRewrite_title, commentIdStep_title]
    have hx_slug : x.slug = p.cur.slug := by
      rw [hpres.2.2.1, syncRewrite_slug, commentIdStep_slug]
    have htitle := postRender_title_char env opts p x
    simp only [hok, resultAttrs]
    refine ⟨⟨_, rfl⟩, ?_, ?_⟩
    · intro hb
      rw [postRender_slug_char]
      dsimp only
      rw [if_pos ⟨hb.1, hb.2.1, hb.2.2.1, by simp [hb.2.2.2]⟩, htitle, hx_slug,
        hx_title]
    · intro hb
      rw [postRender_slug_char]
      dsimp only
      rw [if_neg (fun h => hb ⟨h.1, h.2.1, h.2.2.1, by simpa using h.2.2.2⟩),
        htitle, hx_slug, hx_title]
      simp only [Bool.not_eq_true]

/-- Witness for C6 at a concrete never-published draft whose title changes
from Old to New while its previous slug was the auto-generated one: the slug
becomes the one generated from the new title. -/
theorem onSaving_slug_regeneration_policy_witness :
    savedOk (onSaving wEnv {} wPostTitleEdit) ∧
    (resultAttrs (onSaving wEnv {} wPostTitleEdit)).slug = some "New-slug" := by
  have h := onSaving_slug_regeneration_policy wEnv {} wPostTitleEdit
    (by decide) (fun _ => rfl)
  refine ⟨h.1, ?_⟩
  rw [h.2.1 ⟨by decide, by decide, rfl, rfl⟩]
  decide

/-- C10. Generated fields are not client-overridable: on a non-migration,
non-import save that leaves the body unchanged and forces no re-render,
whatever `html` and `plaintext` the payload supplies, the persisted `html`
and `plaintext` are the previous stored values. -/
theorem onSaving_generated_fields_not_overridable
    (env : Env) (opts : SaveOptions) (p : Post)
    (hmig : opts.migrating = false) (himp : opts.importing = false)
    (hforce : opts.force_rerender = false)
    (hmd : p.cur.mobiledoc = p.prev.mobiledoc)
    (ht : truthyS p.cur.mobiledoc = true)
    (hpt : truthyS p.prev.plaintext = true)
    (hnosched : p.cur.status ≠ some Status.scheduled) :
    savedOk (onSaving env opts p) ∧
    (resultAttrs (onSaving env opts p)).html = p.prev.html ∧
    (resultAttrs (onSaving env opts p)).plaintext = p.prev.plaintext := by
  have hsm : (syncRewrite env opts p.prev (commentIdStep opts p)).mobiledoc
      = p.prev.mobiledoc := by
    rw [syncRewrite_mobiledoc_unchanged _ _ _ _
        (by rw [commentIdStep_mobiledoc]; exact hmd)
        (by rw [commentIdStep_mobiledoc]; exact ht) hforce,
      commentIdStep_mobiledoc, hmd]
  have hr := renderStep_no_rerender env opts p.prev
    (syncRewrite env opts p.prev (commentIdStep opts p)) hsm hforce hmig himp
  have hok := onSaving_eq_ok env opts p
    (syncRewrite env opts p.prev (commentIdStep opts p))
    (fun h => hnosched h.2.1) (fun h => hnosched h.1)
    (fun h => hnosched h.1) (fun h => hnosched h.1) hr
  have hhtml := syncRewrite_html_eq env opts p.prev (commentIdStep opts p) hmig
  have hplain := syncRewrite_plaintext_eq env opts p.prev (commentIdStep opts p) hmig
  simp only [hok, resultAttrs]
  refine ⟨⟨_, rfl⟩, ?_, ?_⟩
  · rw [postRender_html, hhtml]
  · rw [postRender_plaintext,
      plaintextStep_skip _ _ _ hhtml (by rw [hplain]; exact hpt), hplain]

/-- Witness for C10 at a concrete draft save whose payload tries to replace
`html` and `plaintext`: the stored values survive. -/
theorem onSaving_generated_fields_not_overridable_witness :
    savedOk (onSaving wEnv {} wPostHtmlOverride) ∧
    (resultAttrs (onSaving wEnv {} wPostHtmlOverride)).html = some "oldhtml" ∧
    (resultAttrs (onSaving wEnv {} wPostHtmlOverride)).plaintext = some "oldtext" :=
  onSaving_generated_fields_not_overridable wEnv {} wPostHtmlOverride
    rfl rfl rfl rfl (by decide) (by decide) (by decide)

end Ghost

namespace Ghost

/-- C7. Type-change event derivation: when the resource type changes, the
emitted sequence is unpublished (old type, if it was published), unscheduled
(old type, if it was scheduled), deleted (old type), added (new type), then
published / scheduled (new type) as the new status warrants, and no generic
edited event appears; when the type does not change, the emitted sequence
ends with the generic edited event. -/
theorem onUpdated_type_change_events (p : Post) :
    (p.cur.ptype ≠ p.prev.ptype →
      onUpdated p =
        (if p.prev.status = some Status.published then
          [⟨p.prev.ptype, "unpublished"⟩] else []) ++
        (if p.prev.status = some Status.scheduled then
          [⟨p.prev.ptype, "unscheduled"⟩] else []) ++
        [⟨p.prev.ptype, "deleted"⟩, ⟨p.cur.ptype, "added"⟩] ++
        (if p.cur.status = some Status.published then
          [⟨p.cur.ptype, "published"⟩] else []) ++
        (if p.cur.status = some Status.scheduled then
          [⟨p.cur.ptype, "scheduled"⟩] else []) ∧
      ∀ e ∈ onUpdated p, e.name ≠ "edited") ∧
    (p.cur.ptype = p.prev.ptype →
      (onUpdated p).getLast? = some ⟨p.cur.ptype, "edited"⟩) := by
  constructor
  · intro h
    have hrw : onUpdated p =
        (if p.prev.status = some Status.published then
          [⟨p.prev.ptype, "unpublished"⟩] else []) ++
        (if p.prev.status = some Status.scheduled then
          [⟨p.prev.ptype, "unscheduled"⟩] else []) ++
        [⟨p.prev.ptype, "deleted"⟩, ⟨p.cur.ptype, "added"⟩] ++
        (if p.cur.status = some Status.published then
          [⟨p.cur.ptype, "published"⟩] else []) ++
        (if p.cur.status = some Status.scheduled then
          [⟨p.cur.ptype, "scheduled"⟩] else []) := by
      unfold onUpdated
      dsimp only
      rw [if_pos h]
    refine ⟨hrw, ?_⟩
    rw [hrw]
    intro e he
    by_cases h1 : p.prev.status = some Status.published <;>
      by_cases h2 : p.prev.status = some Status.scheduled <;>
      by_cases h3 : p.cur.status = some Status.published <;>
      by_cases h4 : p.cur.status = some Status.scheduled <;>
      simp_all <;> rcases he with rfl | rfl | rfl | rfl | rfl | rfl <;> simp
  · intro h
    have hrw : ∃ l, onUpdated p = l ++ [⟨p.cur.ptype, "edited"⟩] := by
      unfold onUpdated
      dsimp only
      rw [if_neg (fun hne => hne h)]
      exact ⟨_, rfl⟩
    obtain ⟨l, hl⟩ := hrw
    rw [hl, List.getLast?_concat]

/-- Witness for C7 at a published post turned into a page, and the same
update without the type change. -/
theorem onUpdated_type_change_events_witness :
    onUpdated wPostTypeChange =
      [⟨some .post, "unpublished"⟩, ⟨some .post, "deleted"⟩,
       ⟨some .page, "added"⟩, ⟨some .page, "published"⟩] ∧
    (∀ e ∈ onUpdated wPostTypeChange, e.name ≠ "edited") ∧
    (onUpdated { wPostTypeChange with
        cur := { wPostTypeChange.cur with ptype := some .post } }).getLast? =
      some ⟨some .post, "edited"⟩ := by
  have h := onUpdated_type_change_events wPostTypeChange
  have h2 := onUpdated_type_change_events
    { wPostTypeChange with cur := { wPostTypeChange.cur with ptype := some .post } }
  refine ⟨?_, (h.1 (by decide)).2, h2.2 (by decide)⟩
  rw [(h.1 (by decide)).1]
  decide

/-- C8. Contributor permission rules: with a Contributor among the actor's
roles, a permitted edit implies the status is not changing and the post is a
draft; a permitted add implies the requested status is absent or draft; a
permitted destroy implies the post is a draft; every grant excludes the
`tags` attribute; and a denial is the NoPermission error. -/
theorem permissible_contributor_rules (c : PermContext) (action : Action)
    (hc : hasRole c.userRoles "Contributor" = true) :
    (∀ ex, permissible c action = .ok ex →
      ex = ["tags"] ∧
      (action = .edit → ¬ isChangingStatus c ∧ isDraftPost c) ∧
      (action = .add → ¬ isPublishedReq c) ∧
      (action = .destroy → isDraftPost c)) ∧
    ((∀ ex, permissible c action ≠ .ok ex) →
      permissible c action = .error notEnoughPermissionErr) := by
  have herr : (∀ ex, permissible c action ≠ .ok ex) →
      permissible c action = .error notEnoughPermissionErr := by
    intro hnone
    have hcases : permissible c action = .error notEnoughPermissionErr ∨
        ∃ ex, permissible c action = .ok ex := by
      unfold permissible
      dsimp only
      split
      · exact .inr ⟨_, rfl⟩
      · exact .inl rfl
    rcases hcases with h | ⟨ex, h⟩
    · exact h
    · exact absurd h (hnone ex)
  refine ⟨?_, herr⟩
  intro ex hex
  unfold permissible at hex
  dsimp only at hex
  split at hex
  case isTrue hup =>
    injection hex with hex
    refine ⟨by rw [← hex], ?_, ?_, ?_⟩
    · rintro rfl
      have h := hup.1
      unfold permHasUserPermission at h
      dsimp only at h
      rw [if_pos ⟨hc, rfl⟩] at h
      exact of_decide_eq_true h
    · rintro rfl
      have h := hup.1
      unfold permHasUserPermission at h
      dsimp only at h
      rw [if_neg (fun hh => Action.noConfusion hh.2),
        if_pos ⟨hc, rfl⟩] at h
      exact of_decide_eq_true h
    · rintro rfl
      have h := hup.1
      unfold permHasUserPermission at h
      dsimp only at h
      rw [if_neg (fun hh => Action.noConfusion hh.2),
        if_neg (fun hh => Action.noConfusion hh.2),
        if_pos ⟨hc, rfl⟩] at h
      exact of_decide_eq_true h
  case isFalse hup =>
    exact absurd hex (by simp)

/-- Witness for C8 at a contributor editing a draft with no status change:
the grant excludes tags; the same context denied the add of a published
post is the NoPermission error. -/
theorem permissible_contributor_rules_witness :
    (["tags"] : List String) = ["tags"] ∧
    (¬ isChangingStatus wContribCtx ∧ isDraftPost wContribCtx) ∧
    permissible { wContribCtx with unsafeStatus := some .published } .add =
      .error notEnoughPermissionErr := by
  have h := permissible_contributor_rules wContribCtx .edit rfl
  have h2 := permissible_contributor_rules
    { wContribCtx with unsafeStatus := some .published } .add rfl
  have hdenied : permissible { wContribCtx with unsafeStatus := some .published }
      .add = .error notEnoughPermissionErr := rfl
  have hx := h.1 ["tags"] rfl
  exact ⟨hx.1, hx.2.1 rfl,
    h2.2 (fun ex hx2 => by rw [hdenied] at hx2; exact Except.noConfusion hx2)⟩

end Ghost

namespace Ghost

theorem sidebarsLookup_eq_none_of_not_mem (s : String)
    (hs : s ∉ recognizedSubdomains) : sidebarsLookup s = none := by
  unfold sidebarsLookup
  have hfind : sidebarsList.find? (fun p => p.1 = s) = none := by
    rw [List.find?_eq_none]
    intro x hx
    simp only [decide_eq_true_eq]
    intro h
    exact hs (List.mem_map.mpr ⟨x, hx, h⟩)
  rw [hfind]
  rfl

/-- C9. The add override rewrites the payload regardless of caller input:
`domain` becomes the process subdomain, `custom_excerpt` the sidebar HTML
looked up under that subdomain (undefined when the subdomain is undefined or
unrecognized), and `feature_image` the CDN logo URL interpolated from the
subdomain. -/
theorem add_overrides_domain_excerpt_featureImage
    (subdomain : Option String) (d d2 : AddData) :
    (addPrepareData subdomain d).domain = subdomain ∧
    (addPrepareData subdomain d).custom_excerpt =
      (match subdomain with
       | none => none
       | some s => sidebarsLookup s) ∧
    (addPrepareData subdomain d).feature_image =
      some ("https://cdn.staterecords.org/pn_logos/" ++
        jsStringOfSubdomain subdomain ++ ".png") ∧
    (addPrepareData subdomain d).domain = (addPrepareData subdomain d2).domain ∧
    (addPrepareData subdomain d).custom_excerpt =
      (addPrepareData subdomain d2).custom_excerpt ∧
    (addPrepareData subdomain d).feature_image =
      (addPrepareData subdomain d2).feature_image ∧
    (∀ s, subdomain = some s → s ∉ recognizedSubdomains →
      (addPrepareData subdomain d).custom_excerpt = none) := by
  refine ⟨rfl, rfl, rfl, rfl, rfl, rfl, ?_⟩
  rintro s rfl hs
  show sidebarsLookup s = none
  exact sidebarsLookup_eq_none_of_not_mem s hs

/-- Witness for C9 at the texas subdomain (recognized) and an unrecognized
subdomain: the payload fields are forced regardless of the caller's data. -/
theorem add_overrides_domain_excerpt_featureImage_witness :
    (addPrepareData (some "texas") { title := some "T" }).domain = some "texas" ∧
    (addPrepareData (some "texas") { title := some "T" }).feature_image =
      some "https://cdn.staterecords.org/pn_logos/texas.png" ∧
    (addPrepareData (some "texas") { custom_excerpt := some "mine" }).custom_excerpt =
      (addPrepareData (some "texas") { title := some "T" }).custom_excerpt ∧
    (addPrepareData (some "nowhere") { title := some "T" }).custom_excerpt = none := by
  have h := add_overrides_domain_excerpt_featureImage (some "texas")
    { title := some "T" } { custom_excerpt := some "mine" }
  have h2 := add_overrides_domain_excerpt_featureImage (some "nowhere")
    ({ title := some "T" } : AddData) {}
  exact ⟨h.1, h.2.2.1, h.2.2.2.2.1.symm, h2.2.2.2.2.2.2 "nowhere" rfl (by decide)⟩

end Ghost
